import Mathlib

/-!
Verification of the SepsIA sepsis-analysis service (`src/main.py`).

The development shallowly embeds the program: text is `List Char`, Python's
`re.search` calls of `parse_gemini_response` become explicit first-occurrence
searches (`findCI`), fallible Python code is embedded in `Except`, and the
FastAPI endpoint becomes a pure function parameterised by the external LLM
call, returning both the HTTP response and the list of LLM calls it made.
-/

set_option maxHeartbeats 1000000
set_option maxRecDepth 4000

namespace SepsIA

/-! ## Characters: case folding, whitespace, parentheses -/

/-- Unicode-aware lower-casing as used by `re.IGNORECASE` matching, restricted
to the alphabet that occurs in the section headers: ASCII letters plus the
Spanish accented vowels and enye. -/
def foldChar (c : Char) : Char :=
  if c = 'Á' then 'á' else if c = 'É' then 'é' else if c = 'Í' then 'í'
  else if c = 'Ó' then 'ó' else if c = 'Ú' then 'ú' else if c = 'Ñ' then 'ñ'
  else if c = 'Ü' then 'ü' else c.toLower

/-- The whitespace set stripped by Python's `str.strip()` (characters for which
`str.isspace()` holds): ASCII whitespace, the C1 separators, NBSP, and the
Unicode space separators. -/
def pyIsSpace (c : Char) : Bool :=
  c = ' ' || c = '\t' || c = '\n' || c = '\r' || c = '\x0b' || c = '\x0c'
  || c = '\x1c' || c = '\x1d' || c = '\x1e' || c = '\x1f' || c = '\x85'
  || c = '\xa0' || c = '\u1680' || ('\u2000' ≤ c && c ≤ '\u200a')
  || c = '\u2028' || c = '\u2029' || c = '\u202f' || c = '\u205f' || c = '\u3000'

/-- The character set stripped by `.strip("()")`. -/
def isParenChar (c : Char) : Bool := c = '(' || c = ')'

/-! ## Case-insensitive substring search (the `re.search` of the parser)

Each of the three patterns of `parse_gemini_response` is a literal (modulo
case) followed by a group, so `re.search(pat, text, re.IGNORECASE)` reduces to
locating the first case-insensitive occurrence of the literal header. -/

/-- Does `text` start with `pat`, comparing case-insensitively? -/
def startsWithCI : List Char → List Char → Bool
  | [], _ => true
  | _ :: _, [] => false
  | p :: ps, t :: ts => (foldChar p == foldChar t) && startsWithCI ps ts

/-- Index of the first case-insensitive occurrence of `pat` in `text`
(`re.search` finds the leftmost match). -/
def findCI (pat : List Char) : List Char → Option Nat
  | [] => if startsWithCI pat [] then some 0 else none
  | c :: rest =>
    if startsWithCI pat (c :: rest) then some 0
    else (findCI pat rest).map (· + 1)

/-- Does `pat` occur (case-insensitively) anywhere in `text`? -/
def containsCI (pat text : List Char) : Bool := (findCI pat text).isSome

/-! ## Python `str.strip` -/

/-- `stripBy p l` removes the characters satisfying `p` from both ends of `l`,
like Python's `str.strip` with the corresponding character set. -/
def stripBy (p : Char → Bool) (l : List Char) : List Char :=
  ((l.dropWhile p).reverse.dropWhile p).reverse

/-- The cleaning applied to each matched group:
`.strip().strip("()").strip()`. -/
def cleanSection (l : List Char) : List Char :=
  stripBy pyIsSpace (stripBy isParenChar (stripBy pyIsSpace l))

/-! ## The three section headers and placeholders -/

/-- Literal of the first regex: the text of `\*\*1\. Análisis Breve:\*\*`. -/
def header1 : List Char := "**1. Análisis Breve:**".data

/-- Literal of the second regex: the text of `\*\*2\. Justificación:\*\*`. -/
def header2 : List Char := "**2. Justificación:**".data

/-- Literal of the third regex: the text of `\*\*3\. Acciones Sugeridas:\*\*`. -/
def header3 : List Char := "**3. Acciones Sugeridas:**".data

/-- Placeholder returned when the first header is not found. -/
def noParse1 : List Char := "No se pudo parsear el análisis.".data

/-- Placeholder returned when the second header is not found. -/
def noParse2 : List Char := "No se pudo parsear la justificación.".data

/-- Placeholder returned when the third header is not found. -/
def noParse3 : List Char := "No se pudieron parsear las acciones.".data

/-- The dict returned by `parse_gemini_response`. -/
structure GeminiParsed where
  analisis_breve : List Char
  justificacion : List Char
  acciones_sugeridas : List Char
deriving DecidableEq, Repr

/-- Group 1 of `re.search(start + lazy-group + lookahead(stop | end), text)`:
from the end of the first occurrence of `startHd` up to the first following
occurrence of `stopHd`, or to the end of the text if `stopHd` never follows.
`none` when `startHd` does not occur. This is the shape of the first two
regexes of `parse_gemini_response`. -/
def searchSection (startHd stopHd : List Char) (text : List Char) : Option (List Char) :=
  match findCI startHd text with
  | none => none
  | some i =>
    match findCI stopHd (text.drop (i + startHd.length)) with
    | none => some (text.drop (i + startHd.length))
    | some j => some ((text.drop (i + startHd.length)).take j)

/-- Group 1 of the third regex `\*\*3\. Acciones Sugeridas:\*\*(.*)` with
`re.DOTALL`: everything after the first occurrence of `header3`. -/
def searchGroup3 (text : List Char) : Option (List Char) :=
  (findCI header3 text).map (fun i => text.drop (i + header3.length))

/-- Attribute access `m.group(1)` embedded in `Except`: on `None` it would
raise an `AttributeError` (the source guards it with `if analisis else ...`). -/
def pyGroup1 : Option (List Char) → Except (List Char) (List Char)
  | none => Except.error "AttributeError: NoneType object has no attribute group".data
  | some g => Except.ok g

/-- The conditional expression
`m.group(1).strip().strip("()").strip() if m else placeholder`. -/
def cleanedOr (m : Option (List Char)) (placeholder : List Char) :
    Except (List Char) (List Char) :=
  if m.isSome then (pyGroup1 m).map cleanSection else Except.ok placeholder

/-- The `try:` block body of `parse_gemini_response`, embedded in `Except`:
three `re.search` calls, then the guarded cleanings, then the result dict. -/
def parse_try_body (text : List Char) : Except (List Char) GeminiParsed := do
  let analisis := searchSection header1 header2 text
  let justificacion := searchSection header2 header3 text
  let acciones := searchGroup3 text
  let clean_analisis ← cleanedOr analisis noParse1
  let clean_justificacion ← cleanedOr justificacion noParse2
  let clean_acciones ← cleanedOr acciones noParse3
  pure ⟨clean_analisis, clean_justificacion, clean_acciones⟩

/-- The `except Exception` handler of `parse_gemini_response`: return the raw
text in the first field. -/
def parse_error_fallback (text _e : List Char) : GeminiParsed :=
  ⟨text, "Error de parseo.".data, "Error de parseo.".data⟩

/-- `parse_gemini_response` from `src/main.py`: the `try` body, with the
generic exception handler around it. -/
def parse_gemini_response (text : List Char) : GeminiParsed :=
  match parse_try_body text with
  | Except.ok r => r
  | Except.error e => parse_error_fallback text e

/-! ## Decimal rendering of integers (Python `str(int)`) -/

/-- Decimal digits of `n`, least significant first. -/
def natDigitsRev (n : Nat) : List Char :=
  if _h : n < 10 then [Nat.digitChar n]
  else Nat.digitChar (n % 10) :: natDigitsRev (n / 10)
termination_by n
decreasing_by exact Nat.div_lt_self (by omega) (by omega)

/-- Decimal rendering of a natural number, as `str` produces it. -/
def natStr (n : Nat) : List Char := (natDigitsRev n).reverse

/-- Python `str` on an `int`. -/
def intStr : Int → List Char
  | Int.ofNat n => natStr n
  | Int.negSucc m => '-' :: natStr (m + 1)

/-! ## JSON values and `json.dumps(..., indent=2, ensure_ascii=False)`

Python floats are modelled by the decimal text their `repr` produces, which is
all of a float that ever reaches the serialized output or the prompt. -/

/-- A JSON value, as held by the untyped `dict` / `list` request fields. -/
inductive JsonVal where
  | jnull
  | jbool (b : Bool)
  | jint (n : Int)
  | jnum (r : String)
  | jstr (s : String)
  | jarr (items : List JsonVal)
  | jobj (members : List (String × JsonVal))

/-- The escaping `json.dumps` applies inside string literals when
`ensure_ascii=False`: backslash, quote, the short control escapes, `\u00XX`
for the remaining control characters, and every other character verbatim. -/
def escChar (c : Char) : List Char :=
  if c = '\\' then ['\\', '\\']
  else if c = '"' then ['\\', '"']
  else if c = '\x08' then ['\\', 'b']
  else if c = '\x0c' then ['\\', 'f']
  else if c = '\n' then ['\\', 'n']
  else if c = '\r' then ['\\', 'r']
  else if c = '\t' then ['\\', 't']
  else if c.toNat < 32 then
    ['\\', 'u', '0', '0', Nat.digitChar (c.toNat / 16), Nat.digitChar (c.toNat % 16)]
  else [c]

/-- Escape every character of a string body. -/
def escBody : List Char → List Char
  | [] => []
  | c :: cs => escChar c ++ escBody cs

/-- A serialized JSON string literal: quote, escaped body, quote. -/
def jsonQuote (s : String) : List Char := '"' :: (escBody s.data ++ ['"'])

/-- The newline-plus-indentation `dumps` emits before an element at nesting
level `lvl` when `indent=2`. -/
def indentChars (lvl : Nat) : List Char := '\n' :: List.replicate (2 * lvl) ' '

mutual
/-- `json.dumps(v, indent=2, ensure_ascii=False)` at nesting level `lvl`. -/
def dumpVal (lvl : Nat) : JsonVal → List Char
  | JsonVal.jnull => "null".data
  | JsonVal.jbool true => "true".data
  | JsonVal.jbool false => "false".data
  | JsonVal.jint n => intStr n
  | JsonVal.jnum r => r.data
  | JsonVal.jstr s => jsonQuote s
  | JsonVal.jarr [] => "[]".data
  | JsonVal.jarr (x :: xs) =>
      '[' :: (indentChars (lvl + 1) ++ dumpVal (lvl + 1) x ++ dumpItems (lvl + 1) xs
        ++ indentChars lvl ++ [']'])
  | JsonVal.jobj [] => ['\x7b', '\x7d']
  | JsonVal.jobj (m :: ms) =>
      '\x7b' :: (indentChars (lvl + 1) ++ dumpMember (lvl + 1) m ++ dumpMembers (lvl + 1) ms
        ++ indentChars lvl ++ ['\x7d'])

/-- The remaining array items, each preceded by a comma and fresh-line indent. -/
def dumpItems (lvl : Nat) : List JsonVal → List Char
  | [] => []
  | x :: xs => ',' :: (indentChars lvl ++ dumpVal lvl x ++ dumpItems lvl xs)

/-- One object member: serialized key, the `": "` key separator, value. -/
def dumpMember (lvl : Nat) : String × JsonVal → List Char
  | (k, v) => jsonQuote k ++ (':' :: ' ' :: dumpVal lvl v)

/-- The remaining object members, each preceded by a comma and indent. -/
def dumpMembers (lvl : Nat) : List (String × JsonVal) → List Char
  | [] => []
  | m :: ms => ',' :: (indentChars lvl ++ dumpMember lvl m ++ dumpMembers lvl ms)
end

/-- `json.dumps(v, indent=2, ensure_ascii=False)`. -/
def json_dumps (v : JsonVal) : List Char := dumpVal 0 v

/-! ## A checker and a grammar for valid JSON text (RFC 8259) -/

/-- An ASCII decimal digit. -/
def jsonDigit (c : Char) : Bool := '0' ≤ c && c ≤ '9'

/-- Consume the RFC 8259 `int` part; `none` if it is absent or has a leading
zero followed by more digits. -/
def intPartRest : List Char → Option (List Char)
  | [] => none
  | c :: cs =>
    if c = '0' then some cs
    else if jsonDigit c then some (cs.dropWhile jsonDigit)
    else none

/-- Consume an optional `frac` part (`.` plus at least one digit). -/
def fracRest : List Char → Option (List Char)
  | '.' :: cs =>
    match cs with
    | c :: cs' => if jsonDigit c then some (cs'.dropWhile jsonDigit) else none
    | [] => none
  | s => some s

/-- Consume an optional `exp` part (`e`/`E`, optional sign, digits). -/
def expRest : List Char → Option (List Char)
  | [] => some []
  | c :: cs =>
    if c = 'e' || c = 'E' then
      match (match cs with | '+' :: r => r | '-' :: r => r | r => r) with
      | d :: ds => if jsonDigit d then some (ds.dropWhile jsonDigit) else none
      | [] => none
    else some (c :: cs)

/-- Strip one optional leading minus sign. -/
def stripMinus : List Char → List Char
  | [] => []
  | c :: cs => if c = '-' then cs else c :: cs

/-- Does `s` spell an RFC 8259 `number`? -/
def jsonNumberOk (s : List Char) : Bool :=
  match intPartRest (stripMinus s) with
  | none => false
  | some r1 =>
    match fracRest r1 with
    | none => false
    | some r2 =>
      match expRest r2 with
      | none => false
      | some r3 => r3.isEmpty

/-- A hexadecimal digit. -/
def hexDigitOk (c : Char) : Bool :=
  jsonDigit c || ('a' ≤ c && c ≤ 'f') || ('A' ≤ c && c ≤ 'F')

/-- Is `s` a well-formed JSON string body (the part between the quotes)? An
unescaped character must not be a quote, a backslash or a control character;
a backslash introduces one of the short escapes or a `\uXXXX` escape. -/
def jsonStrBodyOk : List Char → Bool
  | [] => true
  | c :: rest =>
    if c = '\\' then
      match rest with
      | [] => false
      | esc :: rest' =>
        if esc = '"' || esc = '\\' || esc = '/' || esc = 'b' || esc = 'f' || esc = 'n'
            || esc = 'r' || esc = 't' then
          jsonStrBodyOk rest'
        else if esc = 'u' then
          match rest' with
          | h1 :: h2 :: h3 :: h4 :: rest2 =>
              hexDigitOk h1 && hexDigitOk h2 && hexDigitOk h3 && hexDigitOk h4
                && jsonStrBodyOk rest2
          | _ => false
        else false
    else c ≠ '"' && 32 ≤ c.toNat && jsonStrBodyOk rest

/-- Insignificant whitespace allowed by the JSON grammar. -/
def isJWS (c : Char) : Bool := c = ' ' || c = '\t' || c = '\n' || c = '\r'

mutual
/-- Derivability of a text as a JSON value (RFC 8259 `value`, without
surrounding whitespace). -/
inductive JVal : List Char → Prop where
  | jnull : JVal "null".data
  | jtrue : JVal "true".data
  | jfalse : JVal "false".data
  | jnum {s : List Char} : jsonNumberOk s = true → JVal s
  | jstr {s : List Char} : jsonStrBodyOk s = true → JVal ('"' :: (s ++ ['"']))
  | jarrEmpty {w : List Char} : w.all isJWS = true → JVal ('[' :: (w ++ [']']))
  | jarr {s : List Char} : JElems s → JVal ('[' :: (s ++ [']']))
  | jobjEmpty {w : List Char} : w.all isJWS = true → JVal ('\x7b' :: (w ++ ['\x7d']))
  | jobj {s : List Char} : JMembers s → JVal ('\x7b' :: (s ++ ['\x7d']))

/-- A JSON `element`: a value with surrounding whitespace. -/
inductive JElem : List Char → Prop where
  | mk {w1 v w2 : List Char} : w1.all isJWS = true → JVal v → w2.all isJWS = true →
      JElem (w1 ++ (v ++ w2))

/-- A comma-separated nonempty list of JSON elements. -/
inductive JElems : List Char → Prop where
  | single {e : List Char} : JElem e → JElems e
  | cons {e rest : List Char} : JElem e → JElems rest → JElems (e ++ (',' :: rest))

/-- A JSON object `member`: whitespace, string key, whitespace, colon, element. -/
inductive JMember : List Char → Prop where
  | mk {w1 k w2 e : List Char} : w1.all isJWS = true → jsonStrBodyOk k = true →
      w2.all isJWS = true → JElem e →
      JMember (w1 ++ (('"' :: (k ++ ['"'])) ++ (w2 ++ (':' :: e))))

/-- A comma-separated nonempty list of JSON members. -/
inductive JMembers : List Char → Prop where
  | single {m : List Char} : JMember m → JMembers m
  | cons {m rest : List Char} : JMember m → JMembers rest → JMembers (m ++ (',' :: rest))
end

mutual
/-- Well-formedness of a modelled JSON value: every `jnum` text spells a JSON
number (Python would otherwise have been handed a non-finite float, which
`json.dumps` serializes as invalid JSON). -/
def jsonValOk : JsonVal → Bool
  | JsonVal.jnull => true
  | JsonVal.jbool _ => true
  | JsonVal.jint _ => true
  | JsonVal.jstr _ => true
  | JsonVal.jnum r => jsonNumberOk r.data
  | JsonVal.jarr xs => jsonItemsOk xs
  | JsonVal.jobj ms => jsonMembersOk ms

/-- Well-formedness of a list of array items. -/
def jsonItemsOk : List JsonVal → Bool
  | [] => true
  | x :: xs => jsonValOk x && jsonItemsOk xs

/-- Well-formedness of a list of object members. -/
def jsonMembersOk : List (String × JsonVal) → Bool
  | [] => true
  | m :: ms => jsonValOk m.2 && jsonMembersOk ms
end

/-- Template literal between placeholders (0). -/
def seg0 : String :=
  "### ROL Y OBJETIVO ###\nActúa como un médico experto en cuidados intensivos y soporte de decisiones clínicas, especializado en la detección temprana de sepsis. Tu propósito es asistir a médicos y enfermeras calificados en un entorno de paciente internado.\n\n### CONTEXTO ###\nEstás analizando los datos de un paciente para identificar el riesgo de sepsis o shock séptico. Un modelo de IA interno (de la aplicación) ha proporcionado una puntuación de riesgo preliminar. Tu tarea es analizar la totalidad de los datos (clínicos, laboratorio, tendencias y comorbilidades) para proveer un análisis accionable e integrado.\n\n### DATOS DEL PACIENTE ###\nAnaliza los siguientes datos. Presta especial atención a las combinaciones y tendencias que sugieran disfunción orgánica múltiple.\n\n**1. Datos Actuales (Signos Vitales y Laboratorio Estándar):**\n* Frecuencia Cardíaca: "

/-- Template literal between placeholders (1). -/
def seg1 : String :=
  " (lat/min)\n* Presión Arterial (Sistólica/Media): "

/-- Template literal between placeholders (2). -/
def seg2 : String :=
  " (mmHg)\n* Frecuencia Respiratoria: "

/-- Template literal between placeholders (3). -/
def seg3 : String :=
  " (resp/min)\n* Temperatura Corporal: "

/-- Template literal between placeholders (4). -/
def seg4 : String :=
  " (°C)\n* Saturación de Oxígeno (SpO2): "

/-- Template literal between placeholders (5). -/
def seg5 : String :=
  " (%)\n* Procalcitonina (PCT): "

/-- Template literal between placeholders (6). -/
def seg6 : String :=
  " (ng/mL)\n* Lactato: "

/-- Template literal between placeholders (7). -/
def seg7 : String :=
  " (mmol/L)\n* Proteína C Reactiva (PCR): "

/-- Template literal between placeholders (8). -/
def seg8 : String :=
  " (mg/L)\n* Leucocitos: "

/-- Template literal between placeholders (9). -/
def seg9 : String :=
  " (x10^9/L)\n\n**2. Historial y Contexto (Formato Estructurado):**\n* Comorbilidades Conocidas (Array JSON): "

/-- Template literal between placeholders (10). -/
def seg10 : String :=
  "\n* Patologías Presentes (String): \""

/-- Template literal between placeholders (11). -/
def seg11 : String :=
  "\"\n* Síntomas Diarios Reportados (String): \""

/-- Template literal between placeholders (12). -/
def seg12 : String :=
  "\"\n\n**3. Datos de Tendencia y Modelo Interno:**\n* Valores Previos (Objeto JSON): "

/-- Template literal between placeholders (13). -/
def seg13 : String :=
  "\n* Puntuación de Riesgo de Sepsis (Modelo IA Interno): "

/-- Template literal between placeholders (14). -/
def seg14 : String :=
  "%\n\n### INSTRUCCIONES DE ANÁLIS... (etc.) ...###\n\n### FORMATO DE RESPUESTA OBLIGATORIO ###\nProporciona tu respuesta estrictamente en el siguiente formato de 3 secciones, respetando los límites de líneas:\n\n**1. Análisis Breve:**\n(Resumen conciso del estado y riesgo. **MÁXIMO 2 LÍNEAS.**)\n\n**2. Justificación:**\n(Explicación concisa. Enfocarse *solo* en los 2-3 factores críticos (ej. \"Hipotensión + Lactato elevado\") que justifican el análisis. **MÁXIMO 5 LÍNEAS.**)\n\n**3. Acciones Sugeridas:**\n(Lista de 3-4 acciones *más urgentes* y priorizadas. Sin explicaciones. **MÁXIMO 5 LÍNEAS en total para esta sección.**)\n"


/-- The request model `PatientData` (`src/main.py`, section 2). Integer fields
are `Int`; `float` fields are modelled by the decimal text `str(float)` renders
(only that text ever reaches the prompt); the two JSON-typed fields are a list
of strings and an untyped member list. -/
structure PatientData where
  frecuencia_cardiaca : Int
  presion_arterial : String
  frecuencia_respiratoria : Int
  temperatura_corporal : List Char
  saturacion_oxigeno : Int
  procalcitonina : List Char
  lactato : List Char
  pcr : List Char
  leucocitos : List Char
  array_json_comorbilidades : List String
  texto_patologias_presentes : String
  texto_sintomas_diarios : String
  objeto_json_valores_previos : List (String × JsonVal)
  porcentaje_ia : Int

/-- The template string `prompt_base`: the fifteen literal segments with the
fourteen named placeholders interleaved. -/
def prompt_base : List Char :=
  seg0.data ++ "{FRECUENCIA_CARDIACA}".data ++ seg1.data ++ "{PRESION_ARTERIAL}".data
  ++ seg2.data ++ "{FRECUENCIA_RESPIRATORIA}".data ++ seg3.data ++ "{TEMPERATURA_CORPORAL}".data
  ++ seg4.data ++ "{SATURACION_OXIGENO}".data ++ seg5.data ++ "{PROCALCITONINA}".data
  ++ seg6.data ++ "{LACTATO}".data ++ seg7.data ++ "{PCR}".data
  ++ seg8.data ++ "{LEUCOCITOS}".data ++ seg9.data ++ "{ARRAY_JSON_COMORBILIDADES}".data
  ++ seg10.data ++ "{TEXTO_PATOLOGIAS_PRESENTES}".data ++ seg11.data ++ "{TEXTO_SINTOMAS_DIARIOS}".data
  ++ seg12.data ++ "{OBJETO_JSON_VALORES_PREVIOS}".data ++ seg13.data ++ "{PORCENTAJE_IA}".data
  ++ seg14.data

/-- The serialized comorbidity list
`json.dumps(data.array_json_comorbilidades, indent=2, ensure_ascii=False)`. -/
def comorbilidades_formateada (pd : PatientData) : List Char :=
  json_dumps (JsonVal.jarr (pd.array_json_comorbilidades.map JsonVal.jstr))

/-- The serialized prior-values map
`json.dumps(data.objeto_json_valores_previos, indent=2, ensure_ascii=False)`. -/
def valores_previos_formateados (pd : PatientData) : List Char :=
  json_dumps (JsonVal.jobj pd.objeto_json_valores_previos)

/-- `prompt_base.format(...)`: each placeholder replaced by the `str` of the
corresponding field (each placeholder occurs exactly once in the template, so
the result is the interleaving of the literal segments with the rendered
values). -/
def prompt_final (pd : PatientData) : List Char :=
  seg0.data ++ intStr pd.frecuencia_cardiaca
  ++ seg1.data ++ pd.presion_arterial.data
  ++ seg2.data ++ intStr pd.frecuencia_respiratoria
  ++ seg3.data ++ pd.temperatura_corporal
  ++ seg4.data ++ intStr pd.saturacion_oxigeno
  ++ seg5.data ++ pd.procalcitonina
  ++ seg6.data ++ pd.lactato
  ++ seg7.data ++ pd.pcr
  ++ seg8.data ++ pd.leucocitos
  ++ seg9.data ++ comorbilidades_formateada pd
  ++ seg10.data ++ pd.texto_patologias_presentes.data
  ++ seg11.data ++ pd.texto_sintomas_diarios.data
  ++ seg12.data ++ valores_previos_formateados pd
  ++ seg13.data ++ intStr pd.porcentaje_ia
  ++ seg14.data

/-! ## Gemini configuration (`src/main.py`, section 3) -/

/-- `genai.GenerationConfig(temperature=0.2, max_output_tokens=4096)`. The
float temperature is modelled as the exact rational the literal denotes. -/
structure GenerationConfig where
  temperature : Rat
  max_output_tokens : Nat
deriving DecidableEq, Repr

/-- The module-level `generation_config`. -/
def generation_config : GenerationConfig :=
  ⟨0.2, 4096⟩

/-- One entry of `safety_settings_config`: a category/threshold pair. -/
structure SafetySetting where
  category : String
  threshold : String
deriving DecidableEq, Repr

/-- The module-level `safety_settings_config` list. -/
def safety_settings_config : List SafetySetting :=
  [⟨"HARM_CATEGORY_HARASSMENT", "BLOCK_NONE"⟩,
   ⟨"HARM_CATEGORY_HATE_SPEECH", "BLOCK_NONE"⟩,
   ⟨"HARM_CATEGORY_SEXUALLY_EXPLICIT", "BLOCK_NONE"⟩,
   ⟨"HARM_CATEGORY_DANGEROUS_CONTENT", "BLOCK_NONE"⟩]

/-! ## The `/analyze` endpoint

The external `model.generate_content` call is a parameter `llm`: it receives
the prompt and yields either the completion text or a raised exception's
message. The endpoint returns the HTTP response together with the list of LLM
calls it performed (each recording the arguments the call site passes:
the prompt, `generation_config`, `safety_settings_config`). -/

/-- A record of one `model.generate_content` call. -/
structure LlmCall where
  prompt : List Char
  config : GenerationConfig
  safety : List SafetySetting

/-- A response body: a parsed analysis (200), an error detail (HTTPException),
the framework validation error (422), or the root welcome message. -/
inductive HttpBody where
  | analysis (r : GeminiParsed)
  | detail (msg : List Char)
  | validationError
  | welcome
deriving DecidableEq

/-- An HTTP response: status code and body. -/
structure HttpResponse where
  status : Nat
  body : HttpBody
deriving DecidableEq

/-- The detail string of the `HTTPException(status_code=500, ...)` raised by
the endpoint handler: an f-string around the exception message. -/
def http_500_detail (msg : List Char) : List Char :=
  "Error al procesar la solicitud: ".data ++ msg

/-- `analyze_patient_endpoint` (`src/main.py`, section 5) after validation:
format the prompt, call Gemini, parse; any exception from the call is caught
and becomes a 500 whose detail wraps the exception text. -/
def analyze_patient_endpoint (llm : List Char → Except (List Char) (List Char))
    (pd : PatientData) : HttpResponse × List LlmCall :=
  let prompt := prompt_final pd
  match llm prompt with
  | Except.error e =>
      (⟨500, HttpBody.detail (http_500_detail e)⟩,
       [⟨prompt, generation_config, safety_settings_config⟩])
  | Except.ok text =>
      (⟨200, HttpBody.analysis (parse_gemini_response text)⟩,
       [⟨prompt, generation_config, safety_settings_config⟩])

/-! ## Request validation

Modelled from the spec: the validation machinery itself is pydantic/FastAPI
(not part of this repository); per the spec it "enforces field presence and
primitive types" against the declared `PatientData` fields and "rejects
malformed payloads with a client error before any external call is made". -/

/-- Lookup of a key in a JSON object (the parsed request body). -/
def lookupField : List (String × JsonVal) → String → Option JsonVal
  | [], _ => none
  | (k, v) :: rest, name => if k = name then some v else lookupField rest name

/-- An `int`-typed field accepts a JSON integer. -/
def asInt : JsonVal → Option Int
  | JsonVal.jint n => some n
  | _ => none

/-- A `str`-typed field accepts a JSON string. -/
def asStr : JsonVal → Option String
  | JsonVal.jstr s => some s
  | _ => none

/-- A `float`-typed field accepts a JSON number; an integral one is rendered
with the trailing `.0` that `str(float)` appends. -/
def floatRender : JsonVal → Option (List Char)
  | JsonVal.jint n => some (intStr n ++ ['.', '0'])
  | JsonVal.jnum r => some r.data
  | _ => none

/-- A `list[str]`-typed field accepts an array whose items are all strings. -/
def asStrItems : List JsonVal → Option (List String)
  | [] => some []
  | JsonVal.jstr s :: rest => (asStrItems rest).map (s :: ·)
  | _ => none

/-- See `asStrItems`. -/
def asStrList : JsonVal → Option (List String)
  | JsonVal.jarr xs => asStrItems xs
  | _ => none

/-- A `dict`-typed field accepts any JSON object. -/
def asObj : JsonVal → Option (List (String × JsonVal))
  | JsonVal.jobj ms => some ms
  | _ => none

/-- Modelled from the spec: pydantic validation of a request body against the
declared `PatientData` fields — every field present with the declared
primitive type, else a validation error (`none`). -/
def validatePatientData (body : JsonVal) : Option PatientData :=
  match body with
  | JsonVal.jobj ms => do
      let fc ← (lookupField ms "frecuencia_cardiaca").bind asInt
      let pa ← (lookupField ms "presion_arterial").bind asStr
      let fr ← (lookupField ms "frecuencia_respiratoria").bind asInt
      let tc ← (lookupField ms "temperatura_corporal").bind floatRender
      let so ← (lookupField ms "saturacion_oxigeno").bind asInt
      let pro ← (lookupField ms "procalcitonina").bind floatRender
      let lac ← (lookupField ms "lactato").bind floatRender
      let pc ← (lookupField ms "pcr").bind floatRender
      let leu ← (lookupField ms "leucocitos").bind floatRender
      let com ← (lookupField ms "array_json_comorbilidades").bind asStrList
      let pat ← (lookupField ms "texto_patologias_presentes").bind asStr
      let sin ← (lookupField ms "texto_sintomas_diarios").bind asStr
      let prev ← (lookupField ms "objeto_json_valores_previos").bind asObj
      let pia ← (lookupField ms "porcentaje_ia").bind asInt
      pure ⟨fc, pa, fr, tc, so, pro, lac, pc, leu, com, pat, sin, prev, pia⟩
  | _ => none

/-- The expected primitive type of each declared field. -/
inductive FieldType where
  | tint | tfloat | tstr | tlistStr | tdict
deriving DecidableEq, Repr

/-- Acceptance of a JSON value at a declared field type (the checks
`validatePatientData` applies). -/
def fieldTypeOk : FieldType → JsonVal → Bool
  | FieldType.tint, v => (asInt v).isSome
  | FieldType.tfloat, v => (floatRender v).isSome
  | FieldType.tstr, v => (asStr v).isSome
  | FieldType.tlistStr, v => (asStrList v).isSome
  | FieldType.tdict, v => (asObj v).isSome

/-- The declared required fields of `PatientData` with their types. -/
def patient_fields : List (String × FieldType) :=
  [("frecuencia_cardiaca", FieldType.tint),
   ("presion_arterial", FieldType.tstr),
   ("frecuencia_respiratoria", FieldType.tint),
   ("temperatura_corporal", FieldType.tfloat),
   ("saturacion_oxigeno", FieldType.tint),
   ("procalcitonina", FieldType.tfloat),
   ("lactato", FieldType.tfloat),
   ("pcr", FieldType.tfloat),
   ("leucocitos", FieldType.tfloat),
   ("array_json_comorbilidades", FieldType.tlistStr),
   ("texto_patologias_presentes", FieldType.tstr),
   ("texto_sintomas_diarios", FieldType.tstr),
   ("objeto_json_valores_previos", FieldType.tdict),
   ("porcentaje_ia", FieldType.tint)]

/-- Is the request field missing, or present with the wrong type? -/
def fieldBad (ms : List (String × JsonVal)) (name : String) (ty : FieldType) : Bool :=
  match lookupField ms name with
  | none => true
  | some v => ! fieldTypeOk ty v

/-- The 422 response the boundary validator produces for a malformed body. -/
def validation_error_response : HttpResponse := ⟨422, HttpBody.validationError⟩

/-- The full route: boundary validation, then the endpoint handler. A body
that fails validation is answered 422 with no LLM call made. -/
def analyze_route (llm : List Char → Except (List Char) (List Char))
    (body : JsonVal) : HttpResponse × List LlmCall :=
  match validatePatientData body with
  | none => (validation_error_response, [])
  | some pd => analyze_patient_endpoint llm pd

/-! ## Startup configuration (`src/main.py`, section 1) -/

/-- The `ValueError` message raised when the key is absent or empty. -/
def missing_key_error : List Char :=
  "No se encontró la GOOGLE_API_KEY en las variables de entorno.".data

/-- The body of the startup `try:` block: `os.getenv("GOOGLE_API_KEY")`, the
falsiness check raising `ValueError`, then `genai.configure`. -/
def api_key_try (env : String → Option String) : Except (List Char) String :=
  match env "GOOGLE_API_KEY" with
  | none => Except.error missing_key_error
  | some k => if k = "" then Except.error missing_key_error else Except.ok k

/-- Outcome of the configuration block: Gemini configured with a key, or a
warning printed while initialization continues. -/
inductive StartupResult where
  | configured (key : String)
  | warning (printed : List Char)
deriving DecidableEq

/-- The startup `try/except` block: any error is caught and only printed
(`Error al configurar Gemini: ...`); the application keeps initializing. -/
def configure_gemini (env : String → Option String) : StartupResult :=
  match api_key_try env with
  | Except.ok k => StartupResult.configured k
  | Except.error e => StartupResult.warning ("Error al configurar Gemini: ".data ++ e)


/-- The documented example patient (the `Field(..., example=...)` values). -/
def examplePatient : PatientData :=
  ⟨125, "85/45", 28, "39.1".data, 89, "4.5".data, "3.1".data, "210.0".data, "18.2".data,
   ["EPOC", "Hipertensión"], "Neumonía Adquirida en la Comunidad (NAC)",
   "Confusión aguda, disnea severa.",
   [("lactato_previo", JsonVal.jnum "1.1"), ("pa_previa", JsonVal.jstr "110/70")], 85⟩

/-! # Lemmas

First-occurrence search: `findCI` returns the position of an occurrence below
which no occurrence starts, and fails when the pattern is absent. -/

/-- A text beginning with a case-equal copy of the pattern matches it. -/
theorem startsWithCI_of_fold {pat occ : List Char}
    (h : occ.map foldChar = pat.map foldChar) (ys : List Char) :
    startsWithCI pat (occ ++ ys) = true := by
  induction pat generalizing occ with
  | nil => rfl
  | cons p ps ih =>
    cases occ with
    | nil => simp at h
    | cons o os =>
      simp only [List.map_cons, List.cons.injEq] at h
      simp [startsWithCI, h.1, ih h.2]

/-- Case-equal lists have equal length. -/
theorem length_of_fold {occ pat : List Char}
    (h : occ.map foldChar = pat.map foldChar) : occ.length = pat.length := by
  have := congrArg List.length h
  simpa using this

/-- A match at position 0 makes `findCI` return 0. -/
theorem findCI_of_startsWith {pat text : List Char}
    (h : startsWithCI pat text = true) : findCI pat text = some 0 := by
  cases text with
  | nil => simp [findCI, h]
  | cons c cs => simp [findCI, h]

/-- Searching past a prefix containing no match start shifts the result. -/
theorem findCI_shift {pat : List Char} (pre post : List Char)
    (hno : ∀ j, j < pre.length → startsWithCI pat ((pre ++ post).drop j) = false) :
    findCI pat (pre ++ post) = (findCI pat post).map (· + pre.length) := by
  induction pre with
  | nil => cases h : findCI pat post <;> simp [h]
  | cons c pre ih =>
    have h0 : startsWithCI pat (c :: (pre ++ post)) = false := by
      simpa using hno 0 (by simp)
    have hno' : ∀ j, j < pre.length → startsWithCI pat ((pre ++ post).drop j) = false := by
      intro j hj
      have := hno (j + 1) (by simpa using Nat.succ_lt_succ hj)
      simpa using this
    rw [List.cons_append]
    simp only [findCI, h0]
    simp only [Bool.false_eq_true, if_false, ih hno']
    cases findCI pat post <;> simp [Nat.add_assoc]

/-- The first occurrence of `pat` in `pre ++ occ ++ post` is at `pre.length`
when `occ` matches it and no earlier position does. -/
theorem findCI_at {pat occ : List Char} (pre post : List Char)
    (hocc : occ.map foldChar = pat.map foldChar)
    (hno : ∀ j, j < pre.length → startsWithCI pat ((pre ++ (occ ++ post)).drop j) = false) :
    findCI pat (pre ++ (occ ++ post)) = some pre.length := by
  rw [findCI_shift pre (occ ++ post) hno,
    findCI_of_startsWith (startsWithCI_of_fold hocc post)]
  simp

/-- An absent pattern makes `findCI` fail. -/
theorem findCI_none_of {pat text : List Char}
    (h : containsCI pat text = false) : findCI pat text = none := by
  cases hf : findCI pat text with
  | none => rfl
  | some i => rw [containsCI, hf] at h; simp at h

/-- Absence is preserved when dropping the head character. -/
theorem containsCI_cons {pat : List Char} {c : Char} {rest : List Char}
    (h : containsCI pat (c :: rest) = false) : containsCI pat rest = false := by
  unfold containsCI at h ⊢
  rw [findCI] at h
  by_cases hs : startsWithCI pat (c :: rest)
  · simp [hs] at h
  · simp only [hs, Bool.false_eq_true, if_false] at h
    cases hf : findCI pat rest with
    | none => rfl
    | some i => rw [hf] at h; simp at h

/-- Absence is preserved on suffixes. -/
theorem containsCI_drop {pat : List Char} (k : Nat) {text : List Char}
    (h : containsCI pat text = false) : containsCI pat (text.drop k) = false := by
  induction k generalizing text with
  | zero => simpa using h
  | succ k ih =>
    cases text with
    | nil => simpa using h
    | cons c rest => rw [List.drop_succ_cons]; exact ih (containsCI_cons h)

/-- Dropping a prefix plus the matched pattern leaves the remaining text. -/
theorem drop_pre_occ {pat occ : List Char} (pre post : List Char)
    (hlen : occ.length = pat.length) :
    (pre ++ (occ ++ post)).drop (pre.length + pat.length) = post := by
  rw [← List.append_assoc, ← hlen, ← List.length_append]
  exact List.drop_left _ _

/-! ## The three section extractions -/

/-- A section search whose start header occurs first at `p.length` and whose
stop header occurs first (after the start) right after `a` yields `a`. -/
theorem searchSection_found (s t p os a ot tail : List Char)
    (hos : os.map foldChar = s.map foldChar) (hot : ot.map foldChar = t.map foldChar)
    (hnoS : ∀ j, j < p.length →
      startsWithCI s ((p ++ (os ++ (a ++ (ot ++ tail)))).drop j) = false)
    (hnoT : ∀ j, j < p.length + s.length + a.length →
      startsWithCI t ((p ++ (os ++ (a ++ (ot ++ tail)))).drop j) = false) :
    searchSection s t (p ++ (os ++ (a ++ (ot ++ tail)))) = some a := by
  have hfind : findCI s (p ++ (os ++ (a ++ (ot ++ tail)))) = some p.length :=
    findCI_at p (a ++ (ot ++ tail)) hos hnoS
  have hdrop : (p ++ (os ++ (a ++ (ot ++ tail)))).drop (p.length + s.length)
      = a ++ (ot ++ tail) :=
    drop_pre_occ p (a ++ (ot ++ tail)) (length_of_fold hos)
  have hnoT' : ∀ j, j < a.length → startsWithCI t ((a ++ (ot ++ tail)).drop j) = false := by
    intro j hj
    have e1 : ((p ++ (os ++ (a ++ (ot ++ tail)))).drop (p.length + s.length)).drop j
        = (p ++ (os ++ (a ++ (ot ++ tail)))).drop (p.length + s.length + j) := by
      rw [List.drop_drop]
    have e2 : (a ++ (ot ++ tail)).drop j
        = (p ++ (os ++ (a ++ (ot ++ tail)))).drop (p.length + s.length + j) := by
      rw [← e1, hdrop]
    rw [e2]
    exact hnoT (p.length + s.length + j) (by omega)
  have hfind2 : findCI t (a ++ (ot ++ tail)) = some a.length :=
    findCI_at a tail hot hnoT'
  simp only [searchSection, hfind, hdrop, hfind2]
  rw [List.take_left]

/-- A section search whose stop header is absent from the text runs to the end
of the text. -/
theorem searchSection_noStop (s t p os a : List Char)
    (hos : os.map foldChar = s.map foldChar)
    (hnoS : ∀ j, j < p.length → startsWithCI s ((p ++ (os ++ a)).drop j) = false)
    (hnone : containsCI t (p ++ (os ++ a)) = false) :
    searchSection s t (p ++ (os ++ a)) = some a := by
  have hfind : findCI s (p ++ (os ++ a)) = some p.length := findCI_at p a hos hnoS
  have hdrop : (p ++ (os ++ a)).drop (p.length + s.length) = a :=
    drop_pre_occ p a (length_of_fold hos)
  have hnone2 : findCI t a = none := by
    have h2 := containsCI_drop (p.length + s.length) hnone
    rw [hdrop] at h2
    exact findCI_none_of h2
  simp only [searchSection, hfind, hdrop, hnone2]

/-- A section search whose start header is absent fails. -/
theorem searchSection_none (s t text : List Char)
    (h : containsCI s text = false) : searchSection s t text = none := by
  simp only [searchSection, findCI_none_of h]

/-- The third group takes everything after the first `header3` occurrence. -/
theorem searchGroup3_found (p o3 c : List Char)
    (ho3 : o3.map foldChar = header3.map foldChar)
    (hno : ∀ j, j < p.length → startsWithCI header3 ((p ++ (o3 ++ c)).drop j) = false) :
    searchGroup3 (p ++ (o3 ++ c)) = some c := by
  have hfind := findCI_at p c ho3 hno
  simp only [searchGroup3, hfind, Option.map_some']
  exact congrArg some (drop_pre_occ p c (length_of_fold ho3))

/-- The third group fails when `header3` is absent. -/
theorem searchGroup3_none {text : List Char}
    (h : containsCI header3 text = false) : searchGroup3 text = none := by
  simp [searchGroup3, findCI_none_of h]

/-! ## Assembling `parse_gemini_response` -/

/-- The `try` body always succeeds, with each field either the cleaned group
or its placeholder. -/
theorem parse_try_body_eq (text : List Char) :
    parse_try_body text = Except.ok
      ⟨(match searchSection header1 header2 text with
         | some g => cleanSection g
         | none => noParse1),
       (match searchSection header2 header3 text with
         | some g => cleanSection g
         | none => noParse2),
       (match searchGroup3 text with
         | some g => cleanSection g
         | none => noParse3)⟩ := by
  rcases h1 : searchSection header1 header2 text with _ | g1 <;>
    rcases h2 : searchSection header2 header3 text with _ | g2 <;>
      rcases h3 : searchGroup3 text with _ | g3 <;>
        simp [parse_try_body, cleanedOr, pyGroup1, h1, h2, h3, Except.map,
          Bind.bind, Except.bind, Pure.pure, Except.pure]

/-- The parser never reaches its exception handler. -/
theorem parse_gemini_eq (text : List Char) :
    parse_gemini_response text =
      ⟨(match searchSection header1 header2 text with
         | some g => cleanSection g
         | none => noParse1),
       (match searchSection header2 header3 text with
         | some g => cleanSection g
         | none => noParse2),
       (match searchGroup3 text with
         | some g => cleanSection g
         | none => noParse3)⟩ := by
  rw [parse_gemini_response, parse_try_body_eq]


/-! # Claims -/

/-- A text and a case-variant differ by `foldChar` nowhere, so matching is
unchanged. -/
theorem startsWithCI_congr {t t' : List Char} (pat : List Char)
    (h : t.map foldChar = t'.map foldChar) : startsWithCI pat t = startsWithCI pat t' := by
  induction pat generalizing t t' with
  | nil => rfl
  | cons p ps ih =>
    cases t with
    | nil =>
      cases t' with
      | nil => rfl
      | cons y ys => simp at h
    | cons x xs =>
      cases t' with
      | nil => simp at h
      | cons y ys =>
        simp only [List.map_cons, List.cons.injEq] at h
        simp [startsWithCI, h.1, ih h.2]

/-- The general shape behind C1 and C10: a reply carrying case-variant copies
of the three headers, in order, at their first occurrences, parses to the
three cleaned sections. -/
theorem parse_three_sections (p a b c o1 o2 o3 : List Char)
    (f1 : o1.map foldChar = header1.map foldChar)
    (f2 : o2.map foldChar = header2.map foldChar)
    (f3 : o3.map foldChar = header3.map foldChar)
    (hno1 : ∀ j, j < p.length →
      startsWithCI header1
        ((p ++ (o1 ++ (a ++ (o2 ++ (b ++ (o3 ++ c)))))).drop j) = false)
    (hno2 : ∀ j, j < p.length + header1.length + a.length →
      startsWithCI header2
        ((p ++ (o1 ++ (a ++ (o2 ++ (b ++ (o3 ++ c)))))).drop j) = false)
    (hno3 : ∀ j, j < p.length + header1.length + a.length + header2.length + b.length →
      startsWithCI header3
        ((p ++ (o1 ++ (a ++ (o2 ++ (b ++ (o3 ++ c)))))).drop j) = false) :
    parse_gemini_response (p ++ (o1 ++ (a ++ (o2 ++ (b ++ (o3 ++ c)))))) =
      ⟨cleanSection a, cleanSection b, cleanSection c⟩ := by
  have l1 := length_of_fold f1
  have l2 := length_of_fold f2
  have key1 : searchSection header1 header2
      (p ++ (o1 ++ (a ++ (o2 ++ (b ++ (o3 ++ c)))))) = some a := by
    apply searchSection_found header1 header2 p o1 a o2 (b ++ (o3 ++ c)) f1 f2 hno1
    intro j hj
    exact hno2 j (by omega)
  have e2 : p ++ (o1 ++ (a ++ (o2 ++ (b ++ (o3 ++ c)))))
      = (p ++ (o1 ++ a)) ++ (o2 ++ (b ++ (o3 ++ c))) := by
    simp [List.append_assoc]
  have key2 : searchSection header2 header3
      (p ++ (o1 ++ (a ++ (o2 ++ (b ++ (o3 ++ c)))))) = some b := by
    rw [e2]
    apply searchSection_found header2 header3 (p ++ (o1 ++ a)) o2 b o3 c f2 f3
    · intro j hj
      rw [← e2]
      exact hno2 j (by simp [List.length_append, l1] at hj ⊢; omega)
    · intro j hj
      rw [← e2]
      exact hno3 j (by simp [List.length_append, l1] at hj ⊢; omega)
  have e3 : p ++ (o1 ++ (a ++ (o2 ++ (b ++ (o3 ++ c)))))
      = (p ++ (o1 ++ (a ++ (o2 ++ b)))) ++ (o3 ++ c) := by
    simp [List.append_assoc]
  have key3 : searchGroup3
      (p ++ (o1 ++ (a ++ (o2 ++ (b ++ (o3 ++ c)))))) = some c := by
    rw [e3]
    apply searchGroup3_found (p ++ (o1 ++ (a ++ (o2 ++ b)))) o3 c f3
    intro j hj
    rw [← e3]
    exact hno3 j (by simp [List.length_append, l1, l2] at hj ⊢; omega)
  rw [parse_gemini_eq, key1, key2, key3]

/-- C1: for every reply of the form `p ++ header1 ++ a ++ header2 ++ b ++
header3 ++ c` whose shown header occurrences are the first (no occurrence of
`header1` starts before it, none of `header2` before its slot, none of
`header3` before its slot), `parse_gemini_response` returns the text between
header 1 and header 2, between header 2 and header 3, and after header 3,
each trimmed of surrounding whitespace and parenthesis characters
(`cleanSection`). -/
theorem claim_C1_headers_in_order (p a b c : List Char)
    (hno1 : ∀ j, j < p.length →
      startsWithCI header1
        ((p ++ (header1 ++ (a ++ (header2 ++ (b ++ (header3 ++ c)))))).drop j) = false)
    (hno2 : ∀ j, j < p.length + header1.length + a.length →
      startsWithCI header2
        ((p ++ (header1 ++ (a ++ (header2 ++ (b ++ (header3 ++ c)))))).drop j) = false)
    (hno3 : ∀ j, j < p.length + header1.length + a.length + header2.length + b.length →
      startsWithCI header3
        ((p ++ (header1 ++ (a ++ (header2 ++ (b ++ (header3 ++ c)))))).drop j) = false) :
    parse_gemini_response (p ++ (header1 ++ (a ++ (header2 ++ (b ++ (header3 ++ c)))))) =
      ⟨cleanSection a, cleanSection b, cleanSection c⟩ :=
  parse_three_sections p a b c header1 header2 header3 rfl rfl rfl hno1 hno2 hno3

/-- C1 witness: the theorem applied to a concrete well-formed reply. -/
theorem claim_C1_witness :
    (∀ j, j < ("Informe. ".data : List Char).length →
      startsWithCI header1
        (("Informe. ".data ++ (header1 ++ ("\n(Grave.)\n".data ++ (header2 ++
          ("\nLactato 3.1.\n".data ++ (header3 ++ "\nCultivos.\n".data)))))).drop j) = false) ∧
    (∀ j, j < ("Informe. ".data : List Char).length + header1.length
        + ("\n(Grave.)\n".data : List Char).length →
      startsWithCI header2
        (("Informe. ".data ++ (header1 ++ ("\n(Grave.)\n".data ++ (header2 ++
          ("\nLactato 3.1.\n".data ++ (header3 ++ "\nCultivos.\n".data)))))).drop j) = false) ∧
    (∀ j, j < ("Informe. ".data : List Char).length + header1.length
        + ("\n(Grave.)\n".data : List Char).length + header2.length
        + ("\nLactato 3.1.\n".data : List Char).length →
      startsWithCI header3
        (("Informe. ".data ++ (header1 ++ ("\n(Grave.)\n".data ++ (header2 ++
          ("\nLactato 3.1.\n".data ++ (header3 ++ "\nCultivos.\n".data)))))).drop j) = false) ∧
    parse_gemini_response
      ("Informe. ".data ++ (header1 ++ ("\n(Grave.)\n".data ++ (header2 ++
        ("\nLactato 3.1.\n".data ++ (header3 ++ "\nCultivos.\n".data)))))) =
      ⟨cleanSection "\n(Grave.)\n".data, cleanSection "\nLactato 3.1.\n".data,
       cleanSection "\nCultivos.\n".data⟩ :=
  ⟨by decide, by decide, by decide,
    claim_C1_headers_in_order "Informe. ".data "\n(Grave.)\n".data "\nLactato 3.1.\n".data
      "\nCultivos.\n".data (by decide) (by decide) (by decide)⟩

/-- C3: a reply containing none of the three headers (the empty reply
included) parses — without reaching the exception handler — to the three
fixed placeholder strings. -/
theorem claim_C3_no_headers (text : List Char)
    (h1 : containsCI header1 text = false)
    (h2 : containsCI header2 text = false)
    (h3 : containsCI header3 text = false) :
    parse_try_body text = Except.ok ⟨noParse1, noParse2, noParse3⟩ ∧
    parse_gemini_response text = ⟨noParse1, noParse2, noParse3⟩ := by
  have k1 := searchSection_none header1 header2 text h1
  have k2 := searchSection_none header2 header3 text h2
  have k3 := searchGroup3_none h3
  constructor
  · rw [parse_try_body_eq, k1, k2, k3]
  · rw [parse_gemini_eq, k1, k2, k3]

/-- C3 witness: the empty reply. -/
theorem claim_C3_witness :
    containsCI header1 "".data = false ∧ containsCI header2 "".data = false ∧
    containsCI header3 "".data = false ∧
    (parse_try_body "".data = Except.ok ⟨noParse1, noParse2, noParse3⟩ ∧
     parse_gemini_response "".data = ⟨noParse1, noParse2, noParse3⟩) :=
  ⟨by decide, by decide, by decide,
    claim_C3_no_headers "".data (by decide) (by decide) (by decide)⟩

/-- C4: the parser never raises. The embedded `try` body succeeds on every
input — its value is exactly what `parse_gemini_response` returns — and the
`except Exception` handler, were it ever reached, returns a result whose
first field is the raw unparsed input text. -/
theorem claim_C4_never_raises (text : List Char) :
    parse_try_body text = Except.ok (parse_gemini_response text) ∧
    (∀ e : List Char, (parse_error_fallback text e).analisis_breve = text) := by
  refine ⟨?_, fun e => rfl⟩
  rw [parse_try_body_eq, parse_gemini_eq]


/-- C2 counterexample: in the reply below exactly header 2 is absent, and the
reply delimits the text `Estado crítico.` for the first section (it lies
between the two present consecutive headers); the parser nevertheless returns
the whole tail — the header-3 line and its section included — as
`analisis_breve`. The other two fields behave as the claim says. -/
theorem claim_C2_counterexample :
    containsCI header2
      "**1. Análisis Breve:**\nEstado crítico.\n**3. Acciones Sugeridas:**\nCultivos.".data
      = false ∧
    (parse_gemini_response
      "**1. Análisis Breve:**\nEstado crítico.\n**3. Acciones Sugeridas:**\nCultivos.".data).justificacion
      = noParse2 ∧
    (parse_gemini_response
      "**1. Análisis Breve:**\nEstado crítico.\n**3. Acciones Sugeridas:**\nCultivos.".data).acciones_sugeridas
      = "Cultivos.".data ∧
    (parse_gemini_response
      "**1. Análisis Breve:**\nEstado crítico.\n**3. Acciones Sugeridas:**\nCultivos.".data).analisis_breve
      = "Estado crítico.\n**3. Acciones Sugeridas:**\nCultivos.".data ∧
    (parse_gemini_response
      "**1. Análisis Breve:**\nEstado crítico.\n**3. Acciones Sugeridas:**\nCultivos.".data).analisis_breve
      ≠ "Estado crítico.".data := by
  exact ⟨by decide, by decide, by decide, by decide, by decide⟩

/-- C2 as amended: with exactly one header absent the parser returns the
fixed placeholder for that section, and extracts the other two sections by
its per-section delimiters; when header 1 or header 3 is the missing one this
is the text the reply delimits for them, but when header 2 is the missing one
`analisis_breve` runs from header 1 to the end of the reply (the header-3
line and its section included), not merely to header 3. -/
theorem claim_C2_amended :
    (∀ p b c : List Char,
      containsCI header1 (p ++ (header2 ++ (b ++ (header3 ++ c)))) = false →
      (∀ j, j < p.length →
        startsWithCI header2 ((p ++ (header2 ++ (b ++ (header3 ++ c)))).drop j) = false) →
      (∀ j, j < p.length + header2.length + b.length →
        startsWithCI header3 ((p ++ (header2 ++ (b ++ (header3 ++ c)))).drop j) = false) →
      parse_gemini_response (p ++ (header2 ++ (b ++ (header3 ++ c)))) =
        ⟨noParse1, cleanSection b, cleanSection c⟩) ∧
    (∀ p a c : List Char,
      containsCI header2 (p ++ (header1 ++ (a ++ (header3 ++ c)))) = false →
      (∀ j, j < p.length →
        startsWithCI header1 ((p ++ (header1 ++ (a ++ (header3 ++ c)))).drop j) = false) →
      (∀ j, j < p.length + header1.length + a.length →
        startsWithCI header3 ((p ++ (header1 ++ (a ++ (header3 ++ c)))).drop j) = false) →
      parse_gemini_response (p ++ (header1 ++ (a ++ (header3 ++ c)))) =
        ⟨cleanSection (a ++ (header3 ++ c)), noParse2, cleanSection c⟩) ∧
    (∀ p a b : List Char,
      containsCI header3 (p ++ (header1 ++ (a ++ (header2 ++ b)))) = false →
      (∀ j, j < p.length →
        startsWithCI header1 ((p ++ (header1 ++ (a ++ (header2 ++ b)))).drop j) = false) →
      (∀ j, j < p.length + header1.length + a.length →
        startsWithCI header2 ((p ++ (header1 ++ (a ++ (header2 ++ b)))).drop j) = false) →
      parse_gemini_response (p ++ (header1 ++ (a ++ (header2 ++ b)))) =
        ⟨cleanSection a, cleanSection b, noParse3⟩) := by
  refine ⟨?caseA, ?caseB, ?caseC⟩
  case caseA =>
    intro p b c habs hno2 hno3
    have k1 := searchSection_none header1 header2 (p ++ (header2 ++ (b ++ (header3 ++ c)))) habs
    have k2 : searchSection header2 header3 (p ++ (header2 ++ (b ++ (header3 ++ c)))) = some b :=
      searchSection_found header2 header3 p header2 b header3 c rfl rfl hno2 hno3
    have e3 : p ++ (header2 ++ (b ++ (header3 ++ c)))
        = (p ++ (header2 ++ b)) ++ (header3 ++ c) := by
      simp [List.append_assoc]
    have k3 : searchGroup3 (p ++ (header2 ++ (b ++ (header3 ++ c)))) = some c := by
      rw [e3]
      apply searchGroup3_found (p ++ (header2 ++ b)) header3 c rfl
      intro j hj
      rw [← e3]
      exact hno3 j (by simp [List.length_append] at hj ⊢; omega)
    rw [parse_gemini_eq, k1, k2, k3]
  case caseB =>
    intro p a c habs hno1 hno3
    have k1 : searchSection header1 header2 (p ++ (header1 ++ (a ++ (header3 ++ c))))
        = some (a ++ (header3 ++ c)) :=
      searchSection_noStop header1 header2 p header1 (a ++ (header3 ++ c)) rfl hno1 habs
    have k2 := searchSection_none header2 header3 (p ++ (header1 ++ (a ++ (header3 ++ c)))) habs
    have e3 : p ++ (header1 ++ (a ++ (header3 ++ c)))
        = (p ++ (header1 ++ a)) ++ (header3 ++ c) := by
      simp [List.append_assoc]
    have k3 : searchGroup3 (p ++ (header1 ++ (a ++ (header3 ++ c)))) = some c := by
      rw [e3]
      apply searchGroup3_found (p ++ (header1 ++ a)) header3 c rfl
      intro j hj
      rw [← e3]
      exact hno3 j (by simp [List.length_append] at hj ⊢; omega)
    rw [parse_gemini_eq, k1, k2, k3]
  case caseC =>
    intro p a b habs hno1 hno2
    have k1 : searchSection header1 header2 (p ++ (header1 ++ (a ++ (header2 ++ b)))) = some a :=
      searchSection_found header1 header2 p header1 a header2 b rfl rfl hno1 hno2
    have e2 : p ++ (header1 ++ (a ++ (header2 ++ b)))
        = (p ++ (header1 ++ a)) ++ (header2 ++ b) := by
      simp [List.append_assoc]
    have k2 : searchSection header2 header3 (p ++ (header1 ++ (a ++ (header2 ++ b)))) = some b := by
      rw [e2]
      apply searchSection_noStop header2 header3 (p ++ (header1 ++ a)) header2 b rfl
      · intro j hj
        rw [← e2]
        exact hno2 j (by simp [List.length_append] at hj ⊢; omega)
      · rw [← e2]
        exact habs
    have k3 := searchGroup3_none habs
    rw [parse_gemini_eq, k1, k2, k3]

/-- C2 witness: the three amended cases applied to concrete replies, one per
missing header. -/
theorem claim_C2_witness :
    (containsCI header1 ("x".data ++ (header2 ++ (" B ".data ++ (header3 ++ " C ".data)))) = false ∧
     parse_gemini_response ("x".data ++ (header2 ++ (" B ".data ++ (header3 ++ " C ".data)))) =
       ⟨noParse1, cleanSection " B ".data, cleanSection " C ".data⟩) ∧
    (containsCI header2 ("y".data ++ (header1 ++ (" A ".data ++ (header3 ++ " C2 ".data)))) = false ∧
     parse_gemini_response ("y".data ++ (header1 ++ (" A ".data ++ (header3 ++ " C2 ".data)))) =
       ⟨cleanSection (" A ".data ++ (header3 ++ " C2 ".data)), noParse2, cleanSection " C2 ".data⟩) ∧
    (containsCI header3 ("z".data ++ (header1 ++ (" A3 ".data ++ (header2 ++ " B3 ".data)))) = false ∧
     parse_gemini_response ("z".data ++ (header1 ++ (" A3 ".data ++ (header2 ++ " B3 ".data)))) =
       ⟨cleanSection " A3 ".data, cleanSection " B3 ".data, noParse3⟩) :=
  ⟨⟨by decide, claim_C2_amended.1 "x".data " B ".data " C ".data
      (by decide) (by decide) (by decide)⟩,
   ⟨by decide, claim_C2_amended.2.1 "y".data " A ".data " C2 ".data
      (by decide) (by decide) (by decide)⟩,
   ⟨by decide, claim_C2_amended.2.2 "z".data " A3 ".data " B3 ".data
      (by decide) (by decide) (by decide)⟩⟩

/-- C10 counterexample: matching is case-insensitive — both replies below
have their third section extracted — but replacing the header-3 occurrence
with an upper-case variant changes the parsed result: header 2 is absent, so
`analisis_breve` runs to the end of the reply and keeps the variant header's
original case. -/
theorem claim_C10_counterexample :
    (parse_gemini_response "**1. Análisis Breve:** X **3. ACCIONES SUGERIDAS:** Y".data).acciones_sugeridas
      = "Y".data ∧
    (parse_gemini_response "**1. Análisis Breve:** X **3. Acciones Sugeridas:** Y".data).acciones_sugeridas
      = "Y".data ∧
    parse_gemini_response "**1. Análisis Breve:** X **3. ACCIONES SUGERIDAS:** Y".data
      ≠ parse_gemini_response "**1. Análisis Breve:** X **3. Acciones Sugeridas:** Y".data := by
  exact ⟨by decide, by decide, by decide⟩

/-- C10 as amended: header matching is case-insensitive, and for a reply
carrying case variants of all three headers in order (at first occurrences)
the parsed result equals that of the exact-case reply; in general, though,
a case-variant header whose raw text leaks into an extracted section (as
happens when header 2 is absent) keeps its original case, so the results can
differ. -/
theorem claim_C10_case_variants (p a b c o1 o2 o3 : List Char)
    (f1 : o1.map foldChar = header1.map foldChar)
    (f2 : o2.map foldChar = header2.map foldChar)
    (f3 : o3.map foldChar = header3.map foldChar)
    (hno1 : ∀ j, j < p.length →
      startsWithCI header1 ((p ++ (o1 ++ (a ++ (o2 ++ (b ++ (o3 ++ c)))))).drop j) = false)
    (hno2 : ∀ j, j < p.length + header1.length + a.length →
      startsWithCI header2 ((p ++ (o1 ++ (a ++ (o2 ++ (b ++ (o3 ++ c)))))).drop j) = false)
    (hno3 : ∀ j, j < p.length + header1.length + a.length + header2.length + b.length →
      startsWithCI header3 ((p ++ (o1 ++ (a ++ (o2 ++ (b ++ (o3 ++ c)))))).drop j) = false) :
    parse_gemini_response (p ++ (o1 ++ (a ++ (o2 ++ (b ++ (o3 ++ c)))))) =
      parse_gemini_response (p ++ (header1 ++ (a ++ (header2 ++ (b ++ (header3 ++ c)))))) := by
  have hmap : (p ++ (o1 ++ (a ++ (o2 ++ (b ++ (o3 ++ c)))))).map foldChar
      = (p ++ (header1 ++ (a ++ (header2 ++ (b ++ (header3 ++ c)))))).map foldChar := by
    simp [List.map_append, f1, f2, f3]
  have transfer : ∀ (pat : List Char) (j : Nat),
      startsWithCI pat ((p ++ (o1 ++ (a ++ (o2 ++ (b ++ (o3 ++ c)))))).drop j)
        = startsWithCI pat
            ((p ++ (header1 ++ (a ++ (header2 ++ (b ++ (header3 ++ c)))))).drop j) := by
    intro pat j
    apply startsWithCI_congr
    rw [List.map_drop, List.map_drop, hmap]
  rw [parse_three_sections p a b c o1 o2 o3 f1 f2 f3 hno1 hno2 hno3,
    parse_three_sections p a b c header1 header2 header3 rfl rfl rfl
      (fun j hj => by rw [← transfer header1 j]; exact hno1 j hj)
      (fun j hj => by rw [← transfer header2 j]; exact hno2 j hj)
      (fun j hj => by rw [← transfer header3 j]; exact hno3 j hj)]

/-- C10 witness: a reply with three case-variant headers parses identically
to the exact-case reply. -/
theorem claim_C10_witness :
    (∀ j, j < ("w".data : List Char).length →
      startsWithCI header1
        (("w".data ++ ("**1. ANÁLISIS BREVE:**".data ++ (" A ".data ++
          ("**2. justificación:**".data ++ (" B ".data ++
            ("**3. Acciones SUGERIDAS:**".data ++ " C ".data)))))).drop j) = false) ∧
    (∀ j, j < ("w".data : List Char).length + header1.length + (" A ".data : List Char).length →
      startsWithCI header2
        (("w".data ++ ("**1. ANÁLISIS BREVE:**".data ++ (" A ".data ++
          ("**2. justificación:**".data ++ (" B ".data ++
            ("**3. Acciones SUGERIDAS:**".data ++ " C ".data)))))).drop j) = false) ∧
    (∀ j, j < ("w".data : List Char).length + header1.length + (" A ".data : List Char).length
        + header2.length + (" B ".data : List Char).length →
      startsWithCI header3
        (("w".data ++ ("**1. ANÁLISIS BREVE:**".data ++ (" A ".data ++
          ("**2. justificación:**".data ++ (" B ".data ++
            ("**3. Acciones SUGERIDAS:**".data ++ " C ".data)))))).drop j) = false) ∧
    parse_gemini_response
      ("w".data ++ ("**1. ANÁLISIS BREVE:**".data ++ (" A ".data ++
        ("**2. justificación:**".data ++ (" B ".data ++
          ("**3. Acciones SUGERIDAS:**".data ++ " C ".data)))))) =
    parse_gemini_response
      ("w".data ++ (header1 ++ (" A ".data ++ (header2 ++ (" B ".data ++
        (header3 ++ " C ".data)))))) :=
  ⟨by decide, by decide, by decide,
    claim_C10_case_variants "w".data " A ".data " B ".data " C ".data
      "**1. ANÁLISIS BREVE:**".data "**2. justificación:**".data
      "**3. Acciones SUGERIDAS:**".data
      (by decide) (by decide) (by decide) (by decide) (by decide) (by decide)⟩


/-! ## The endpoint claims -/

/-- C7: when the external LLM call raises, the endpoint catches the exception
and answers 500, the detail being the f-string wrapper around — hence
containing — the exception's message. -/
theorem claim_C7_llm_error_500 (pd : PatientData) (msg : List Char)
    (llm : List Char → Except (List Char) (List Char))
    (hllm : llm (prompt_final pd) = Except.error msg) :
    (analyze_patient_endpoint llm pd).1 = ⟨500, HttpBody.detail (http_500_detail msg)⟩ ∧
    List.IsInfix msg (http_500_detail msg) := by
  constructor
  · simp only [analyze_patient_endpoint, hllm]
  · exact ⟨"Error al procesar la solicitud: ".data, [], by simp [http_500_detail]⟩

/-- C7 witness: a call that always raises yields the 500 with the message in
the detail. -/
theorem claim_C7_witness :
    (fun _ : List Char => (Except.error "boom".data : Except (List Char) (List Char)))
      (prompt_final examplePatient) = Except.error "boom".data ∧
    ((analyze_patient_endpoint (fun _ => Except.error "boom".data) examplePatient).1
        = ⟨500, HttpBody.detail (http_500_detail "boom".data)⟩ ∧
     List.IsInfix "boom".data (http_500_detail "boom".data)) :=
  ⟨rfl, claim_C7_llm_error_500 examplePatient "boom".data
    (fun _ => Except.error "boom".data) rfl⟩

/-- C8: every LLM call the endpoint makes uses the fixed generation
configuration (temperature 0.2, output capped at 4096 tokens) and the fixed
safety policy with all four harm categories at BLOCK_NONE. -/
theorem claim_C8_fixed_config (llm : List Char → Except (List Char) (List Char))
    (pd : PatientData) (call : LlmCall)
    (hmem : call ∈ (analyze_patient_endpoint llm pd).2) :
    call.config.temperature = 0.2 ∧ call.config.max_output_tokens = 4096 ∧
    call.safety = [⟨"HARM_CATEGORY_HARASSMENT", "BLOCK_NONE"⟩,
      ⟨"HARM_CATEGORY_HATE_SPEECH", "BLOCK_NONE"⟩,
      ⟨"HARM_CATEGORY_SEXUALLY_EXPLICIT", "BLOCK_NONE"⟩,
      ⟨"HARM_CATEGORY_DANGEROUS_CONTENT", "BLOCK_NONE"⟩] := by
  have hc : call = ⟨prompt_final pd, generation_config, safety_settings_config⟩ := by
    rcases h : llm (prompt_final pd) with e | t <;>
      simp only [analyze_patient_endpoint, h, List.mem_singleton] at hmem <;>
        exact hmem
  subst hc
  exact ⟨rfl, rfl, rfl⟩

/-- C8 witness: the single call the endpoint makes on the example patient. -/
theorem claim_C8_witness :
    (⟨prompt_final examplePatient, generation_config, safety_settings_config⟩ : LlmCall) ∈
      (analyze_patient_endpoint (fun _ => Except.ok "respuesta".data) examplePatient).2 ∧
    ((⟨prompt_final examplePatient, generation_config, safety_settings_config⟩ : LlmCall).config.temperature = 0.2 ∧
     (⟨prompt_final examplePatient, generation_config, safety_settings_config⟩ : LlmCall).config.max_output_tokens = 4096 ∧
     (⟨prompt_final examplePatient, generation_config, safety_settings_config⟩ : LlmCall).safety =
       [⟨"HARM_CATEGORY_HARASSMENT", "BLOCK_NONE"⟩,
        ⟨"HARM_CATEGORY_HATE_SPEECH", "BLOCK_NONE"⟩,
        ⟨"HARM_CATEGORY_SEXUALLY_EXPLICIT", "BLOCK_NONE"⟩,
        ⟨"HARM_CATEGORY_DANGEROUS_CONTENT", "BLOCK_NONE"⟩]) :=
  have hm : (⟨prompt_final examplePatient, generation_config, safety_settings_config⟩ : LlmCall) ∈
      (analyze_patient_endpoint (fun _ => Except.ok "respuesta".data) examplePatient).2 :=
    List.Mem.head _
  ⟨hm, claim_C8_fixed_config (fun _ => Except.ok "respuesta".data) examplePatient _ hm⟩

/-- C9: when the API-key environment variable is absent, the configuration
block catches the `ValueError`, prints the warning, and initialization
continues (the block yields a value rather than propagating the error). -/
theorem claim_C9_missing_key_warning (env : String → Option String)
    (h : env "GOOGLE_API_KEY" = none) :
    configure_gemini env =
      StartupResult.warning ("Error al configurar Gemini: ".data ++ missing_key_error) := by
  simp [configure_gemini, api_key_try, h]

/-- C9 witness: an environment with no variables at all. -/
theorem claim_C9_witness :
    (fun _ : String => (none : Option String)) "GOOGLE_API_KEY" = none ∧
    configure_gemini (fun _ => none) =
      StartupResult.warning ("Error al configurar Gemini: ".data ++ missing_key_error) :=
  ⟨rfl, claim_C9_missing_key_warning (fun _ => none) rfl⟩


/-! ## Validation (C6) -/

/-- A successful typed getter at a field certifies the field is well-typed. -/
theorem fieldBad_eq_false {ms : List (String × JsonVal)} {name : String} {ty : FieldType}
    {α : Type} {f : JsonVal → Option α} {x : α}
    (hf : ∀ v, (f v).isSome = true → fieldTypeOk ty v = true)
    (h : (lookupField ms name).bind f = some x) : fieldBad ms name ty = false := by
  cases hl : lookupField ms name with
  | none => rw [hl] at h; simp at h
  | some v =>
    rw [hl] at h
    simp only [Option.some_bind] at h
    have hok : fieldTypeOk ty v = true := hf v (by rw [h]; rfl)
    simp [fieldBad, hl, hok]

/-- Splitting a successful monadic bind over `Option`. -/
theorem bind_some_destruct {α β : Type} {x : Option α} {f : α → Option β} {b : β}
    (h : x >>= f = some b) : ∃ a, x = some a ∧ f a = some b := by
  cases x with
  | none => exact absurd h (by simp)
  | some a => exact ⟨a, rfl, h⟩

/-- A body that validates has every declared field present and well-typed. -/
theorem validate_ok_fields {ms : List (String × JsonVal)} {pd : PatientData}
    (h : validatePatientData (JsonVal.jobj ms) = some pd) :
    ∀ nt ∈ patient_fields, fieldBad ms nt.1 nt.2 = false := by
  simp only [validatePatientData] at h
  obtain ⟨fc, hfc, h⟩ := bind_some_destruct h
  obtain ⟨pa, hpa, h⟩ := bind_some_destruct h
  obtain ⟨fr, hfr, h⟩ := bind_some_destruct h
  obtain ⟨tc, htc, h⟩ := bind_some_destruct h
  obtain ⟨so, hso, h⟩ := bind_some_destruct h
  obtain ⟨pro, hpro, h⟩ := bind_some_destruct h
  obtain ⟨lac, hlac, h⟩ := bind_some_destruct h
  obtain ⟨pc, hpc, h⟩ := bind_some_destruct h
  obtain ⟨leu, hleu, h⟩ := bind_some_destruct h
  obtain ⟨com, hcom, h⟩ := bind_some_destruct h
  obtain ⟨pat, hpat, h⟩ := bind_some_destruct h
  obtain ⟨sin, hsin, h⟩ := bind_some_destruct h
  obtain ⟨prev, hprev, h⟩ := bind_some_destruct h
  obtain ⟨pia, hpia, h⟩ := bind_some_destruct h
  intro nt hmem
  simp only [patient_fields, List.mem_cons, List.not_mem_nil, or_false] at hmem
  rcases hmem with rfl | rfl | rfl | rfl | rfl | rfl | rfl | rfl | rfl | rfl | rfl | rfl | rfl | rfl
  · exact fieldBad_eq_false (fun _ h => h) hfc
  · exact fieldBad_eq_false (fun _ h => h) hpa
  · exact fieldBad_eq_false (fun _ h => h) hfr
  · exact fieldBad_eq_false (fun _ h => h) htc
  · exact fieldBad_eq_false (fun _ h => h) hso
  · exact fieldBad_eq_false (fun _ h => h) hpro
  · exact fieldBad_eq_false (fun _ h => h) hlac
  · exact fieldBad_eq_false (fun _ h => h) hpc
  · exact fieldBad_eq_false (fun _ h => h) hleu
  · exact fieldBad_eq_false (fun _ h => h) hcom
  · exact fieldBad_eq_false (fun _ h => h) hpat
  · exact fieldBad_eq_false (fun _ h => h) hsin
  · exact fieldBad_eq_false (fun _ h => h) hprev
  · exact fieldBad_eq_false (fun _ h => h) hpia

/-- C6: a request body missing one of the declared required fields, or
carrying it with the wrong primitive type, is answered 422 by the boundary
validator, identically for every possible external LLM — in particular with
an empty list of LLM calls: the external call is never made. -/
theorem claim_C6_validation_422 (ms : List (String × JsonVal)) (name : String)
    (ty : FieldType) (hmem : (name, ty) ∈ patient_fields)
    (hbad : fieldBad ms name ty = true) :
    (∀ llm, analyze_route llm (JsonVal.jobj ms) = (validation_error_response, [])) ∧
    validation_error_response.status = 422 := by
  have hval : validatePatientData (JsonVal.jobj ms) = none := by
    cases hv : validatePatientData (JsonVal.jobj ms) with
    | none => rfl
    | some pd =>
      have hgood := validate_ok_fields hv (name, ty) hmem
      rw [hbad] at hgood
      exact absurd hgood (by simp)
  exact ⟨fun llm => by simp [analyze_route, hval], rfl⟩

/-- C6 witness: the empty body misses every field; the route answers 422 and
performs no LLM call. -/
theorem claim_C6_witness :
    ("frecuencia_cardiaca", FieldType.tint) ∈ patient_fields ∧
    fieldBad [] "frecuencia_cardiaca" FieldType.tint = true ∧
    ((∀ llm, analyze_route llm (JsonVal.jobj []) = (validation_error_response, [])) ∧
     validation_error_response.status = 422) :=
  ⟨by simp [patient_fields], rfl,
    claim_C6_validation_422 [] "frecuencia_cardiaca" FieldType.tint
      (by simp [patient_fields]) rfl⟩


/-! ## Serialized JSON is valid JSON (C5) -/

/-- `Nat.digitChar` of a digit is an ASCII digit. -/
theorem jsonDigit_digitChar {m : Nat} (h : m < 10) : jsonDigit (Nat.digitChar m) = true := by
  have hall : ∀ k, k < 10 → jsonDigit (Nat.digitChar k) = true := by decide
  exact hall m h

/-- Every character of `natDigitsRev` is a digit. -/
theorem natDigitsRev_all_digits (n : Nat) : (natDigitsRev n).all jsonDigit = true := by
  induction n using Nat.strong_induction_on with
  | _ n ih =>
    rw [natDigitsRev]
    split
    · next h => simp [jsonDigit_digitChar h]
    · next h =>
      have h10 : n / 10 < n := Nat.div_lt_self (by omega) (by omega)
      simp [jsonDigit_digitChar (Nat.mod_lt n (by omega)), ih _ h10]

/-- `natDigitsRev` is never empty. -/
theorem natDigitsRev_ne_nil (n : Nat) : natDigitsRev n ≠ [] := by
  rw [natDigitsRev]
  split <;> simp

/-- `natStr` is nonempty, and for positive `n` it has no leading zero. -/
theorem natStr_props (n : Nat) :
    natStr n ≠ [] ∧ (1 ≤ n → ∀ cs, natStr n ≠ '0' :: cs) := by
  induction n using Nat.strong_induction_on with
  | _ n ih =>
    by_cases h : n < 10
    · have e : natStr n = [Nat.digitChar n] := by
        rw [natStr, natDigitsRev]
        simp [h]
      constructor
      · simp [e]
      · intro hn cs hc
        rw [e] at hc
        have hne : Nat.digitChar n ≠ '0' := by
          have hall : ∀ k, 1 ≤ k → k < 10 → Nat.digitChar k ≠ '0' := by decide
          exact hall n hn h
        exact hne (by injection hc)
    · have e : natStr n = natStr (n / 10) ++ [Nat.digitChar (n % 10)] := by
        conv_lhs => rw [natStr, natDigitsRev]
        simp [h, natStr]
      have hlt : n / 10 < n := Nat.div_lt_self (by omega) (by omega)
      obtain ⟨hne, hh⟩ := ih (n / 10) hlt
      constructor
      · simp [e]
      · intro _ cs hc
        cases hd : natStr (n / 10) with
        | nil => exact hne hd
        | cons c0 cs0 =>
          rw [e, hd] at hc
          have hcc : c0 = '0' ∧ cs0 ++ [Nat.digitChar (n % 10)] = cs := by simpa using hc
          exact hh (by omega) cs0 (by rw [hd, hcc.1])

/-- All-digit text is fully consumed by `dropWhile jsonDigit`. -/
theorem dropWhile_digits_nil {l : List Char} (h : ∀ x ∈ l, jsonDigit x = true) :
    l.dropWhile jsonDigit = [] := by
  induction l with
  | nil => rfl
  | cons c cs ih =>
    rw [List.dropWhile_cons]
    simp [h c (by simp), ih (fun x hx => h x (by simp [hx]))]

/-- Every character of `natStr` is a digit (membership form). -/
theorem natStr_all_digits_mem (n : Nat) : ∀ c ∈ natStr n, jsonDigit c = true := by
  intro c hc
  have h := natDigitsRev_all_digits n
  rw [List.all_eq_true] at h
  exact h c (by rw [natStr] at hc; simpa using hc)

/-- The integer part of `natStr n` consumes the whole string. -/
theorem intPartRest_natStr (n : Nat) : intPartRest (natStr n) = some [] := by
  obtain ⟨hne, hh⟩ := natStr_props n
  cases e : natStr n with
  | nil => exact absurd e hne
  | cons c cs =>
    have hcd : jsonDigit c = true := natStr_all_digits_mem n c (by rw [e]; simp)
    have hcs : ∀ x ∈ cs, jsonDigit x = true := fun x hx =>
      natStr_all_digits_mem n x (by rw [e]; simp [hx])
    by_cases hz : c = '0'
    · have h0 : n = 0 := by
        by_contra hn0
        exact hh (by omega) cs (by rw [e, hz])
      have e0 : natStr n = ['0'] := by
        subst h0
        rw [natStr, natDigitsRev]
        decide
      rw [e0] at e
      rw [← e]
      decide
    · simp only [intPartRest, hcd, if_true, if_neg hz]
      rw [dropWhile_digits_nil hcs]

/-- `str(int)` always spells a JSON number. -/
theorem jsonNumberOk_intStr (n : Int) : jsonNumberOk (intStr n) = true := by
  cases n with
  | ofNat m =>
    have hstrip : stripMinus (natStr m) = natStr m := by
      obtain ⟨hne, _⟩ := natStr_props m
      cases e : natStr m with
      | nil => exact absurd e hne
      | cons c cs =>
        have hcd : jsonDigit c = true := natStr_all_digits_mem m c (by rw [e]; simp)
        have hcm : c ≠ '-' := by
          intro hEq
          rw [hEq] at hcd
          exact absurd hcd (by decide)
        rw [stripMinus, if_neg hcm]
    show jsonNumberOk (natStr m) = true
    rw [jsonNumberOk, hstrip, intPartRest_natStr m]
    rfl
  | negSucc m =>
    show jsonNumberOk ('-' :: natStr (m + 1)) = true
    have hstrip : stripMinus ('-' :: natStr (m + 1)) = natStr (m + 1) := by
      rw [stripMinus, if_pos rfl]
    rw [jsonNumberOk, hstrip, intPartRest_natStr (m + 1)]
    rfl


/-- `Nat.digitChar` of a value below 16 is a hexadecimal digit. -/
theorem hexDigitOk_digitChar {m : Nat} (h : m < 16) : hexDigitOk (Nat.digitChar m) = true := by
  have hall : ∀ k, k < 16 → hexDigitOk (Nat.digitChar k) = true := by decide
  exact hall m h

/-- A short escape is accepted and the checker continues after it. -/
theorem strBody_escape_short {x : Char} {rest : List Char}
    (hx : (x = '"' || x = '\\' || x = '/' || x = 'b' || x = 'f' || x = 'n'
      || x = 'r' || x = 't') = true) :
    jsonStrBodyOk ('\\' :: x :: rest) = jsonStrBodyOk rest := by
  have hd : x = '"' ∨ x = '\\' ∨ x = '/' ∨ x = 'b' ∨ x = 'f' ∨ x = 'n' ∨ x = 'r' ∨ x = 't' := by
    simpa [or_assoc] using hx
  rcases hd with rfl | rfl | rfl | rfl | rfl | rfl | rfl | rfl <;>
    · rw [jsonStrBodyOk.eq_def]
      simp

/-- A `\u00XY` escape is accepted and the checker continues after it. -/
theorem strBody_escape_u {d1 d2 : Char} {rest : List Char}
    (h1 : hexDigitOk d1 = true) (h2 : hexDigitOk d2 = true) :
    jsonStrBodyOk ('\\' :: 'u' :: '0' :: '0' :: d1 :: d2 :: rest) = jsonStrBodyOk rest := by
  rw [jsonStrBodyOk.eq_def]
  have h0 : hexDigitOk '0' = true := by decide
  simp [h0, h1, h2]

/-- An ordinary character is accepted and the checker continues after it. -/
theorem strBody_plain {c : Char} {rest : List Char}
    (hq : c ≠ '"') (hb : c ≠ '\\') (hc : 32 ≤ c.toNat) :
    jsonStrBodyOk (c :: rest) = jsonStrBodyOk rest := by
  rw [jsonStrBodyOk.eq_def]
  simp [hq, hb, hc]

/-- The escaped body of any string passes the JSON string-body checker. -/
theorem jsonStrBodyOk_escBody (l : List Char) : jsonStrBodyOk (escBody l) = true := by
  induction l with
  | nil => rfl
  | cons c cs ih =>
    rw [escBody]
    unfold escChar
    split_ifs with h1 h2 h3 h4 h5 h6 h7 h8 <;>
      simp only [List.cons_append, List.nil_append]
    · rw [strBody_escape_short (by decide)]; exact ih
    · rw [strBody_escape_short (by decide)]; exact ih
    · rw [strBody_escape_short (by decide)]; exact ih
    · rw [strBody_escape_short (by decide)]; exact ih
    · rw [strBody_escape_short (by decide)]; exact ih
    · rw [strBody_escape_short (by decide)]; exact ih
    · rw [strBody_escape_short (by decide)]; exact ih
    · rw [strBody_escape_u (hexDigitOk_digitChar (by omega)) (hexDigitOk_digitChar (by omega))]
      exact ih
    · rw [strBody_plain h2 h1 (by omega)]; exact ih

/-- The indentation emitted by `dumps` is JSON whitespace. -/
theorem indentChars_ws (l : Nat) : (indentChars l).all isJWS = true := by
  simp only [indentChars, List.all_cons, Bool.and_eq_true]
  constructor
  · decide
  · rw [List.all_eq_true]
    intro x hx
    have hxe := List.eq_of_mem_replicate hx
    subst hxe
    decide

/-- A list of serialized strings is well-formed. -/
theorem jsonItemsOk_map_jstr (l : List String) : jsonItemsOk (l.map JsonVal.jstr) = true := by
  induction l with
  | nil => rfl
  | cons s rest ih => simp [jsonItemsOk, jsonValOk, ih]


mutual

/-- Serializing any well-formed value yields derivable JSON text. -/
theorem jval_dump : ∀ (v : JsonVal), jsonValOk v = true → ∀ lvl : Nat, JVal (dumpVal lvl v)
  | JsonVal.jnull, _, lvl => by
      simp only [dumpVal]
      exact JVal.jnull
  | JsonVal.jbool true, _, lvl => by
      simp only [dumpVal]
      exact JVal.jtrue
  | JsonVal.jbool false, _, lvl => by
      simp only [dumpVal]
      exact JVal.jfalse
  | JsonVal.jint n, _, lvl => by
      simp only [dumpVal]
      exact JVal.jnum (jsonNumberOk_intStr n)
  | JsonVal.jnum r, h, lvl => by
      simp only [dumpVal]
      exact JVal.jnum (by simpa [jsonValOk] using h)
  | JsonVal.jstr s, _, lvl => by
      simp only [dumpVal, jsonQuote]
      exact JVal.jstr (jsonStrBodyOk_escBody s.data)
  | JsonVal.jarr [], _, lvl => by
      simp only [dumpVal]
      exact @JVal.jarrEmpty [] rfl
  | JsonVal.jarr (x :: xs), h, lvl => by
      have hx : jsonValOk x = true ∧ jsonItemsOk xs = true := by
        simpa [jsonValOk, jsonItemsOk, Bool.and_eq_true] using h
      have hs := jelems_dump x xs hx.1 hx.2 lvl
      have e : dumpVal lvl (JsonVal.jarr (x :: xs))
          = '[' :: ((indentChars (lvl + 1) ++ (dumpVal (lvl + 1) x
              ++ (dumpItems (lvl + 1) xs ++ indentChars lvl))) ++ [']']) := by
        simp [dumpVal, List.append_assoc]
      rw [e]
      exact JVal.jarr hs
  | JsonVal.jobj [], _, lvl => by
      simp only [dumpVal]
      exact @JVal.jobjEmpty [] rfl
  | JsonVal.jobj (m :: ms), h, lvl => by
      have hm : jsonValOk m.2 = true ∧ jsonMembersOk ms = true := by
        simpa [jsonValOk, jsonMembersOk, Bool.and_eq_true] using h
      have hs := jmembers_dump m ms hm.1 hm.2 lvl
      have e : dumpVal lvl (JsonVal.jobj (m :: ms))
          = '\x7b' :: ((indentChars (lvl + 1) ++ (dumpMember (lvl + 1) m
              ++ (dumpMembers (lvl + 1) ms ++ indentChars lvl))) ++ ['\x7d']) := by
        simp [dumpVal, List.append_assoc]
      rw [e]
      exact JVal.jobj hs
termination_by v _ _ => sizeOf v

/-- The items of a dumped nonempty array, with their indentation, form a
derivable element list. -/
theorem jelems_dump : ∀ (x : JsonVal) (xs : List JsonVal),
    jsonValOk x = true → jsonItemsOk xs = true → ∀ lvl : Nat,
    JElems (indentChars (lvl + 1) ++ (dumpVal (lvl + 1) x
      ++ (dumpItems (lvl + 1) xs ++ indentChars lvl)))
  | x, [], hx, _, lvl => by
      have he : JElem (indentChars (lvl + 1) ++ (dumpVal (lvl + 1) x ++ indentChars lvl)) :=
        JElem.mk (indentChars_ws (lvl + 1)) (jval_dump x hx (lvl + 1)) (indentChars_ws lvl)
      have hs := JElems.single he
      simp only [dumpItems]
      simpa [List.append_assoc] using hs
  | x, x' :: xs', hx, hxs, lvl => by
      have hx' : jsonValOk x' = true ∧ jsonItemsOk xs' = true := by
        simpa [jsonItemsOk, Bool.and_eq_true] using hxs
      have hrest := jelems_dump x' xs' hx'.1 hx'.2 lvl
      have he : JElem (indentChars (lvl + 1) ++ (dumpVal (lvl + 1) x ++ ([] : List Char))) :=
        JElem.mk (indentChars_ws (lvl + 1)) (jval_dump x hx (lvl + 1)) rfl
      have hc := JElems.cons he hrest
      simp only [dumpItems]
      simpa [List.append_assoc] using hc
termination_by x xs _ _ _ => 1 + sizeOf x + sizeOf xs

/-- The members of a dumped nonempty object, with their indentation, form a
derivable member list. -/
theorem jmembers_dump : ∀ (m : String × JsonVal) (ms : List (String × JsonVal)),
    jsonValOk m.2 = true → jsonMembersOk ms = true → ∀ lvl : Nat,
    JMembers (indentChars (lvl + 1) ++ (dumpMember (lvl + 1) m
      ++ (dumpMembers (lvl + 1) ms ++ indentChars lvl)))
  | (k, v), [], hv, _, lvl => by
      have he : JElem ([' '] ++ (dumpVal (lvl + 1) v ++ indentChars lvl)) :=
        JElem.mk (by decide) (jval_dump v hv (lvl + 1)) (indentChars_ws lvl)
      have hm : JMember (indentChars (lvl + 1) ++ (('"' :: (escBody k.data ++ ['"']))
          ++ (([] : List Char) ++ (':' :: ([' '] ++ (dumpVal (lvl + 1) v ++ indentChars lvl)))))) :=
        JMember.mk (indentChars_ws (lvl + 1)) (jsonStrBodyOk_escBody k.data) rfl he
      have hs := JMembers.single hm
      simp only [dumpMember, dumpMembers, jsonQuote]
      simpa [List.append_assoc] using hs
  | (k, v), m' :: ms', hv, hms, lvl => by
      have hm' : jsonValOk m'.2 = true ∧ jsonMembersOk ms' = true := by
        simpa [jsonMembersOk, Bool.and_eq_true] using hms
      have hrest := jmembers_dump m' ms' hm'.1 hm'.2 lvl
      have he : JElem ([' '] ++ (dumpVal (lvl + 1) v ++ ([] : List Char))) :=
        JElem.mk (by decide) (jval_dump v hv (lvl + 1)) rfl
      have hm : JMember (indentChars (lvl + 1) ++ (('"' :: (escBody k.data ++ ['"']))
          ++ (([] : List Char) ++ (':' :: ([' '] ++ (dumpVal (lvl + 1) v ++ ([] : List Char))))))) :=
        JMember.mk (indentChars_ws (lvl + 1)) (jsonStrBodyOk_escBody k.data) rfl he
      have hc := JMembers.cons hm hrest
      simp only [dumpMember, dumpMembers, jsonQuote]
      simpa [List.append_assoc] using hc
termination_by m ms _ _ _ => 1 + sizeOf m + sizeOf ms

end


/-! ## The prompt contains every field (C5) -/

/-- A list is an infix of itself followed by anything. -/
theorem infix_here (x r : List Char) : List.IsInfix x (x ++ r) :=
  ⟨[], r, by simp⟩

/-- Infixes are preserved by prepending. -/
theorem infix_shift (l : List Char) {x r : List Char} (h : List.IsInfix x r) :
    List.IsInfix x (l ++ r) := by
  obtain ⟨s, t, rfl⟩ := h
  exact ⟨l ++ s, t, by simp⟩

/-- The rendered prompt, reassociated to the right. -/
theorem prompt_final_assoc (pd : PatientData) :
    prompt_final pd = seg0.data ++ (intStr pd.frecuencia_cardiaca ++ (seg1.data ++ (pd.presion_arterial.data ++ (seg2.data ++ (intStr pd.frecuencia_respiratoria ++ (seg3.data ++ (pd.temperatura_corporal ++ (seg4.data ++ (intStr pd.saturacion_oxigeno ++ (seg5.data ++ (pd.procalcitonina ++ (seg6.data ++ (pd.lactato ++ (seg7.data ++ (pd.pcr ++ (seg8.data ++ (pd.leucocitos ++ (seg9.data ++ (comorbilidades_formateada pd ++ (seg10.data ++ (pd.texto_patologias_presentes.data ++ (seg11.data ++ (pd.texto_sintomas_diarios.data ++ (seg12.data ++ (valores_previos_formateados pd ++ (seg13.data ++ (intStr pd.porcentaje_ia ++ (seg14.data)))))))))))))))))))))))))))) := by
  simp [prompt_final, List.append_assoc]

/-- C5: for every well-formed `PatientData` (each number held by the untyped
prior-values map spells a JSON number — Python would otherwise hold a
non-finite float there), the rendered prompt contains the rendered value of
each of the ten scalar fields and the two free-text fields, and contains the
`json.dumps` serializations of the comorbidity list and the prior-values map,
both of which are valid JSON texts (derivable in the RFC 8259 grammar
`JVal`). -/
theorem claim_C5_prompt_renders (pd : PatientData)
    (hprev : jsonMembersOk pd.objeto_json_valores_previos = true) :
    List.IsInfix (intStr pd.frecuencia_cardiaca) (prompt_final pd) ∧
    List.IsInfix (pd.presion_arterial.data) (prompt_final pd) ∧
    List.IsInfix (intStr pd.frecuencia_respiratoria) (prompt_final pd) ∧
    List.IsInfix (pd.temperatura_corporal) (prompt_final pd) ∧
    List.IsInfix (intStr pd.saturacion_oxigeno) (prompt_final pd) ∧
    List.IsInfix (pd.procalcitonina) (prompt_final pd) ∧
    List.IsInfix (pd.lactato) (prompt_final pd) ∧
    List.IsInfix (pd.pcr) (prompt_final pd) ∧
    List.IsInfix (pd.leucocitos) (prompt_final pd) ∧
    List.IsInfix (intStr pd.porcentaje_ia) (prompt_final pd) ∧
    List.IsInfix (pd.texto_patologias_presentes.data) (prompt_final pd) ∧
    List.IsInfix (pd.texto_sintomas_diarios.data) (prompt_final pd) ∧
    List.IsInfix (comorbilidades_formateada pd) (prompt_final pd) ∧
    JVal (comorbilidades_formateada pd) ∧
    List.IsInfix (valores_previos_formateados pd) (prompt_final pd) ∧
    JVal (valores_previos_formateados pd) := by
  have hp := prompt_final_assoc pd
  refine ⟨?_, ?_, ?_, ?_, ?_, ?_, ?_, ?_, ?_, ?_, ?_, ?_, ?_, ?_, ?_, ?_⟩
  · rw [hp]
    exact infix_shift _ (infix_here _ _)
  · rw [hp]
    exact infix_shift _ (infix_shift _ (infix_shift _ (infix_here _ _)))
  · rw [hp]
    exact infix_shift _ (infix_shift _ (infix_shift _ (infix_shift _ (infix_shift _ (infix_here _ _)))))
  · rw [hp]
    exact infix_shift _ (infix_shift _ (infix_shift _ (infix_shift _ (infix_shift _ (infix_shift _ (infix_shift _ (infix_here _ _)))))))
  · rw [hp]
    exact infix_shift _ (infix_shift _ (infix_shift _ (infix_shift _ (infix_shift _ (infix_shift _ (infix_shift _ (infix_shift _ (infix_shift _ (infix_here _ _)))))))))
  · rw [hp]
    exact infix_shift _ (infix_shift _ (infix_shift _ (infix_shift _ (infix_shift _ (infix_shift _ (infix_shift _ (infix_shift _ (infix_shift _ (infix_shift _ (infix_shift _ (infix_here _ _)))))))))))
  · rw [hp]
    exact infix_shift _ (infix_shift _ (infix_shift _ (infix_shift _ (infix_shift _ (infix_shift _ (infix_shift _ (infix_shift _ (infix_shift _ (infix_shift _ (infix_shift _ (infix_shift _ (infix_shift _ (infix_here _ _)))))))))))))
  · rw [hp]
    exact infix_shift _ (infix_shift _ (infix_shift _ (infix_shift _ (infix_shift _ (infix_shift _ (infix_shift _ (infix_shift _ (infix_shift _ (infix_shift _ (infix_shift _ (infix_shift _ (infix_shift _ (infix_shift _ (infix_shift _ (infix_here _ _)))))))))))))))
  · rw [hp]
    exact infix_shift _ (infix_shift _ (infix_shift _ (infix_shift _ (infix_shift _ (infix_shift _ (infix_shift _ (infix_shift _ (infix_shift _ (infix_shift _ (infix_shift _ (infix_shift _ (infix_shift _ (infix_shift _ (infix_shift _ (infix_shift _ (infix_shift _ (infix_here _ _)))))))))))))))))
  · rw [hp]
    exact infix_shift _ (infix_shift _ (infix_shift _ (infix_shift _ (infix_shift _ (infix_shift _ (infix_shift _ (infix_shift _ (infix_shift _ (infix_shift _ (infix_shift _ (infix_shift _ (infix_shift _ (infix_shift _ (infix_shift _ (infix_shift _ (infix_shift _ (infix_shift _ (infix_shift _ (infix_shift _ (infix_shift _ (infix_shift _ (infix_shift _ (infix_shift _ (infix_shift _ (infix_shift _ (infix_shift _ (infix_here _ _)))))))))))))))))))))))))))
  · rw [hp]
    exact infix_shift _ (infix_shift _ (infix_shift _ (infix_shift _ (infix_shift _ (infix_shift _ (infix_shift _ (infix_shift _ (infix_shift _ (infix_shift _ (infix_shift _ (infix_shift _ (infix_shift _ (infix_shift _ (infix_shift _ (infix_shift _ (infix_shift _ (infix_shift _ (infix_shift _ (infix_shift _ (infix_shift _ (infix_here _ _)))))))))))))))))))))
  · rw [hp]
    exact infix_shift _ (infix_shift _ (infix_shift _ (infix_shift _ (infix_shift _ (infix_shift _ (infix_shift _ (infix_shift _ (infix_shift _ (infix_shift _ (infix_shift _ (infix_shift _ (infix_shift _ (infix_shift _ (infix_shift _ (infix_shift _ (infix_shift _ (infix_shift _ (infix_shift _ (infix_shift _ (infix_shift _ (infix_shift _ (infix_shift _ (infix_here _ _)))))))))))))))))))))))
  · rw [hp]
    exact infix_shift _ (infix_shift _ (infix_shift _ (infix_shift _ (infix_shift _ (infix_shift _ (infix_shift _ (infix_shift _ (infix_shift _ (infix_shift _ (infix_shift _ (infix_shift _ (infix_shift _ (infix_shift _ (infix_shift _ (infix_shift _ (infix_shift _ (infix_shift _ (infix_shift _ (infix_here _ _)))))))))))))))))))
  · have hok : jsonValOk (JsonVal.jarr (pd.array_json_comorbilidades.map JsonVal.jstr)) = true := by
      simp [jsonValOk, jsonItemsOk_map_jstr]
    exact jval_dump _ hok 0
  · rw [hp]
    exact infix_shift _ (infix_shift _ (infix_shift _ (infix_shift _ (infix_shift _ (infix_shift _ (infix_shift _ (infix_shift _ (infix_shift _ (infix_shift _ (infix_shift _ (infix_shift _ (infix_shift _ (infix_shift _ (infix_shift _ (infix_shift _ (infix_shift _ (infix_shift _ (infix_shift _ (infix_shift _ (infix_shift _ (infix_shift _ (infix_shift _ (infix_shift _ (infix_shift _ (infix_here _ _)))))))))))))))))))))))))
  · have hok : jsonValOk (JsonVal.jobj pd.objeto_json_valores_previos) = true := by
      simp [jsonValOk, hprev]
    exact jval_dump _ hok 0


/-- C5 witness: the documented example patient is well-formed and the theorem
applies to it. -/
theorem claim_C5_witness :
    jsonMembersOk examplePatient.objeto_json_valores_previos = true ∧
    (List.IsInfix (intStr examplePatient.frecuencia_cardiaca) (prompt_final examplePatient) ∧
     List.IsInfix (examplePatient.presion_arterial.data) (prompt_final examplePatient) ∧
     List.IsInfix (intStr examplePatient.frecuencia_respiratoria) (prompt_final examplePatient) ∧
     List.IsInfix (examplePatient.temperatura_corporal) (prompt_final examplePatient) ∧
     List.IsInfix (intStr examplePatient.saturacion_oxigeno) (prompt_final examplePatient) ∧
     List.IsInfix (examplePatient.procalcitonina) (prompt_final examplePatient) ∧
     List.IsInfix (examplePatient.lactato) (prompt_final examplePatient) ∧
     List.IsInfix (examplePatient.pcr) (prompt_final examplePatient) ∧
     List.IsInfix (examplePatient.leucocitos) (prompt_final examplePatient) ∧
     List.IsInfix (intStr examplePatient.porcentaje_ia) (prompt_final examplePatient) ∧
     List.IsInfix (examplePatient.texto_patologias_presentes.data) (prompt_final examplePatient) ∧
     List.IsInfix (examplePatient.texto_sintomas_diarios.data) (prompt_final examplePatient) ∧
     List.IsInfix (comorbilidades_formateada examplePatient) (prompt_final examplePatient) ∧
     JVal (comorbilidades_formateada examplePatient) ∧
     List.IsInfix (valores_previos_formateados examplePatient) (prompt_final examplePatient) ∧
     JVal (valores_previos_formateados examplePatient)) :=
  ⟨by decide, claim_C5_prompt_renders examplePatient (by decide)⟩

end SepsIA
